import Mathlib

set_option synthInstance.maxSize 4000

/-!
# Verification of the `agdc` datacube query layer

A shallow embedding of `src/api/source/main/python/datacube/api/query.py`
and `src/cube_util.py`.  The PostgreSQL database is modelled as explicit
lists of rows of the tables `acquisition`, `satellite`, `dataset` and
`tile`; each SQL statement in the source is translated into a pure Lean
function over that database value, and the surrounding Python control flow
(the shared `try`/`except` harness of all generator functions, the paged
`result_generator`, the CSV `copy` export) is translated into explicit
state/outcome values.
-/

/-! ## Time values

`datetime` values are modelled structurally as (year, month, day, seconds
within the day); a `date` is such a value with `tod = 0`, which matches the
PostgreSQL promotion of a `date` to the timestamp at midnight when it is
compared against a timestamp, and the `::date` cast drops the time of day.
-/

structure PyDateTime where
  year : Nat
  month : Nat
  day : Nat
  tod : Nat
deriving DecidableEq, Repr

/-- The SQL cast `end_datetime::date` — the PostgreSQL date cast, as the midnight instant
(the representative used when the date is compared against timestamps). -/
def dateCast (t : PyDateTime) : PyDateTime :=
  { t with tod := 0 }

/-- Lexicographic (chronological) `≤` on datetime values. -/
def dtLe (a b : PyDateTime) : Prop :=
  a.year < b.year ∨ (a.year = b.year ∧
    (a.month < b.month ∨ (a.month = b.month ∧
      (a.day < b.day ∨ (a.day = b.day ∧ a.tod ≤ b.tod)))))

/-- Lexicographic (chronological) `<` on datetime values. -/
def dtLt (a b : PyDateTime) : Prop :=
  a.year < b.year ∨ (a.year = b.year ∧
    (a.month < b.month ∨ (a.month = b.month ∧
      (a.day < b.day ∨ (a.day = b.day ∧ a.tod < b.tod)))))

instance : DecidableRel dtLe := fun a b => by
  unfold dtLe; infer_instance

instance : DecidableRel dtLt := fun a b => by
  unfold dtLt; infer_instance

theorem dtLe_refl (a : PyDateTime) : dtLe a a := by
  cases a; dsimp only [dtLe]; omega

theorem dtLe_trans {a b c : PyDateTime} (h₁ : dtLe a b) (h₂ : dtLe b c) :
    dtLe a c := by
  cases a; cases b; cases c; dsimp only [dtLe] at *; omega

theorem dtLe_total (a b : PyDateTime) : dtLe a b ∨ dtLe b a := by
  cases a; cases b; dsimp only [dtLe]; omega

theorem dtLe_antisymm {a b : PyDateTime} (h₁ : dtLe a b) (h₂ : dtLe b a) :
    a = b := by
  cases a; cases b
  dsimp only [dtLe] at *; simp only [PyDateTime.mk.injEq]
  omega

theorem dtLt_trans {a b c : PyDateTime} (h₁ : dtLt a b) (h₂ : dtLt b c) :
    dtLt a c := by
  cases a; cases b; cases c; dsimp only [dtLt] at *; omega

theorem dtLt_trichotomy (a b : PyDateTime) : dtLt a b ∨ a = b ∨ dtLt b a := by
  cases a; cases b
  dsimp only [dtLt]; simp only [PyDateTime.mk.injEq]
  omega

theorem dtLt_asymm {a b : PyDateTime} (h : dtLt a b) : ¬ dtLt b a := by
  cases a; cases b; dsimp only [dtLt] at *; omega

theorem dtLt_to_le {a b : PyDateTime} (h : dtLt a b) : dtLe a b := by
  cases a; cases b; dsimp only [dtLt, dtLe] at *; omega

/-- The SQL predicate `end_datetime::date between %(acq_min)s and %(acq_max)s`.
Both bounds are passed through from the Python caller; a `datetime.date`
argument is the midnight instant of that day. -/
def acqDateBetween (endDt acqMin acqMax : PyDateTime) : Prop :=
  dtLe acqMin (dateCast endDt) ∧ dtLe (dateCast endDt) acqMax

instance : ∀ endDt acqMin acqMax, Decidable (acqDateBetween endDt acqMin acqMax) := fun _ _ _ => by
  unfold acqDateBetween; infer_instance

/-! ## Enumerated domain values (`query.py` lines 45–84) -/

/-- Enumeration `TileClass`: `SINGLE = 1`, `MOSAIC = 4`. -/
def TileClass_SINGLE : Nat := 1

def TileClass_MOSAIC : Nat := 4

/-- Constant `TILE_CLASSES = [TileClass.SINGLE, TileClass.MOSAIC]`, as the stored codes
bound to the `%(tile_class)s` parameter of every query. -/
def TILE_CLASSES : List Nat := [TileClass_SINGLE, TileClass_MOSAIC]

/-- Enumeration `TileType.ONE_DEGREE = 1`; `TILE_TYPE = TileType.ONE_DEGREE`, the single
code bound to the `%(tile_type)s` parameter of every query. -/
def TileType_ONE_DEGREE : Nat := 1

def TILE_TYPE_PARAM : List Nat := [TileType_ONE_DEGREE]

/-- Enumeration `ProcessingLevel` codes. -/
def ProcessingLevel_ORTHO : Nat := 1
def ProcessingLevel_NBAR : Nat := 2
def ProcessingLevel_PQA : Nat := 3
def ProcessingLevel_FC : Nat := 4
def ProcessingLevel_DSM : Nat := 100
def ProcessingLevel_DEM : Nat := 110
def ProcessingLevel_DEM_S : Nat := 120
def ProcessingLevel_DEM_H : Nat := 130

/-- Enumeration `SortType`: the `asc`/`desc` keyword spliced into each `order by`. -/
inductive SortType where
  | asc
  | desc
deriving DecidableEq, Repr

/-! ## Database rows

The relational schema (`acquisition`, `satellite`, `tile`, `dataset`)
queried by `query.py`.  Key and code columns are natural numbers, grid
indices are integers, the acquisition timestamps are `PyDateTime`s.
-/

structure AcquisitionRow where
  acquisition_id : Nat
  satellite_id : Nat
  start_datetime : PyDateTime
  end_datetime : PyDateTime
deriving DecidableEq, Repr

structure SatelliteRow where
  satellite_id : Nat
  satellite_tag : String
deriving DecidableEq, Repr

structure DatasetRow where
  dataset_id : Nat
  acquisition_id : Nat
  level_id : Nat
deriving DecidableEq, Repr

structure TileRow where
  dataset_id : Nat
  x_index : Int
  y_index : Int
  tile_pathname : String
  tile_type_id : Nat
  tile_class_id : Nat
deriving DecidableEq, Repr

structure Database where
  acquisitions : List AcquisitionRow
  satellites : List SatelliteRow
  datasets : List DatasetRow
  tiles : List TileRow
deriving DecidableEq, Repr

/-- One row of the repeated level sub-select
`select dataset.acquisition_id, tile.dataset_id, tile.x_index, tile.y_index,
tile.tile_pathname, tile.tile_type_id, tile.tile_class_id
from tile join dataset on dataset.dataset_id = tile.dataset_id
where dataset.level_id = L`. -/
structure SubTile where
  acquisition_id : Nat
  dataset_id : Nat
  x_index : Int
  y_index : Int
  tile_pathname : String
  tile_type_id : Nat
  tile_class_id : Nat
deriving DecidableEq, Repr

/-- The level sub-select itself: `tile` joined with `dataset` on
`dataset_id`, restricted to the given processing level. -/
def levelTiles (db : Database) (level : Nat) : List SubTile :=
  db.tiles.flatMap fun t =>
    (db.datasets.filter fun d =>
        d.dataset_id == t.dataset_id && d.level_id == level).map fun d =>
      { acquisition_id := d.acquisition_id
        dataset_id := t.dataset_id
        x_index := t.x_index
        y_index := t.y_index
        tile_pathname := t.tile_pathname
        tile_type_id := t.tile_type_id
        tile_class_id := t.tile_class_id }

theorem mem_levelTiles {db : Database} {level : Nat} {st : SubTile} :
    st ∈ levelTiles db level ↔
      ∃ t ∈ db.tiles, ∃ d ∈ db.datasets,
        d.dataset_id = t.dataset_id ∧ d.level_id = level ∧
        st = { acquisition_id := d.acquisition_id, dataset_id := t.dataset_id,
               x_index := t.x_index, y_index := t.y_index,
               tile_pathname := t.tile_pathname, tile_type_id := t.tile_type_id,
               tile_class_id := t.tile_class_id } := by
  simp only [levelTiles, List.mem_flatMap, List.mem_map, List.mem_filter,
    Bool.and_eq_true, beq_iff_eq]
  constructor
  · rintro ⟨t, ht, d, ⟨hd, h1, h2⟩, rfl⟩
    exact ⟨t, ht, d, hd, h1, h2, rfl⟩
  · rintro ⟨t, ht, d, hd, h1, h2, rfl⟩
    exact ⟨t, ht, d, ⟨hd, h1, h2⟩, rfl⟩

/-! ## Ordering of cell results

`order by nbar.x_index {sort}, nbar.y_index {sort}` — lexicographic on the
grid indices, both keys following the single requested direction. -/

/-- Ascending lexicographic order on `(x_index, y_index)` pairs. -/
def cellLexLe (p q : Int × Int) : Prop :=
  p.1 < q.1 ∨ (p.1 = q.1 ∧ p.2 ≤ q.2)

instance : DecidableRel cellLexLe := fun p q => by
  unfold cellLexLe; infer_instance

/-- The `order by` comparison of the cell queries for a requested direction. -/
def cellOrderLe (sort : SortType) (p q : Int × Int) : Prop :=
  match sort with
  | .asc => cellLexLe p q
  | .desc => cellLexLe q p

instance : ∀ sort, DecidableRel (cellOrderLe sort) := fun sort p q => by
  cases sort <;> (unfold cellOrderLe; infer_instance)

instance : IsTotal (Int × Int) cellLexLe :=
  ⟨by intro a b; unfold cellLexLe; omega⟩

instance : IsTrans (Int × Int) cellLexLe :=
  ⟨by intro a b c h₁ h₂; unfold cellLexLe at *; omega⟩

instance : IsAntisymm (Int × Int) cellLexLe :=
  ⟨by
    intro a b h₁ h₂
    unfold cellLexLe at *
    have hx : a.1 = b.1 := by omega
    have hy : a.2 = b.2 := by omega
    exact Prod.ext hx hy⟩

instance : ∀ sort, IsTotal (Int × Int) (cellOrderLe sort) := fun sort =>
  ⟨by intro a b; cases sort <;> (unfold cellOrderLe cellLexLe; omega)⟩

instance : ∀ sort, IsTrans (Int × Int) (cellOrderLe sort) := fun sort =>
  ⟨by intro a b c h₁ h₂; cases sort <;> (unfold cellOrderLe cellLexLe at *; omega)⟩

instance : ∀ sort, IsAntisymm (Int × Int) (cellOrderLe sort) := fun sort =>
  ⟨by
    intro a b h₁ h₂
    cases sort <;>
      (unfold cellOrderLe cellLexLe at *
       have hx : a.1 = b.1 := by omega
       have hy : a.2 = b.2 := by omega
       exact Prod.ext hx hy)⟩

/-! ## `list_cells_as_generator` (`query.py` lines 155–258)

The join/filter part of the SQL, producing the bag of qualifying
`(x_index, y_index)` pairs.  The caller's `datasets` argument is accepted
(as the list of requested processing-level codes) but — exactly as in the
source, see the `TODO take some notice of requested dataset types` — it is
never consulted: the three sub-selects are bound to the fixed levels
`ProcessingLevel.NBAR`, `ProcessingLevel.PQA` and `ProcessingLevel.FC`.
-/

def cellsPresentBag (db : Database) (x y : List Int) (satellites : List String)
    (acq_min acq_max : PyDateTime) : List (Int × Int) :=
  db.acquisitions.flatMap fun acq =>
    (db.satellites.filter fun sat =>
        sat.satellite_id == acq.satellite_id).flatMap fun sat =>
      ((levelTiles db ProcessingLevel_NBAR).filter fun nbar =>
          nbar.acquisition_id == acq.acquisition_id).flatMap fun nbar =>
        ((levelTiles db ProcessingLevel_PQA).filter fun pq =>
            pq.acquisition_id == acq.acquisition_id &&
            pq.x_index == nbar.x_index && pq.y_index == nbar.y_index &&
            pq.tile_type_id == nbar.tile_type_id &&
            pq.tile_class_id == nbar.tile_class_id).flatMap fun _pq =>
          ((levelTiles db ProcessingLevel_FC).filter fun fc =>
              fc.acquisition_id == acq.acquisition_id &&
              fc.x_index == nbar.x_index && fc.y_index == nbar.y_index &&
              fc.tile_type_id == nbar.tile_type_id &&
              fc.tile_class_id == nbar.tile_class_id).flatMap fun _fc =>
            if nbar.tile_type_id ∈ TILE_TYPE_PARAM ∧
               nbar.tile_class_id ∈ TILE_CLASSES ∧
               sat.satellite_tag ∈ satellites ∧
               nbar.x_index ∈ x ∧ nbar.y_index ∈ y ∧
               acqDateBetween acq.end_datetime acq_min acq_max then
              [(nbar.x_index, nbar.y_index)]
            else []

/-- The rows yielded by `list_cells_as_generator` on a successful run:
`select distinct` over the join (`List.dedup`) followed by
`order by nbar.x_index {sort}, nbar.y_index {sort}`.  Each row becomes a
`Cell` carrying exactly its `(x_index, y_index)` projection, so cells are
identified with those pairs. -/
def list_cells_rows (db : Database) (x y : List Int) (satellites : List String)
    (acq_min acq_max : PyDateTime) (_datasets : List Nat) (sort : SortType) :
    List (Int × Int) :=
  List.insertionSort (cellOrderLe sort)
    (cellsPresentBag db x y satellites acq_min acq_max).dedup

/-- The join/filter condition of the present-cells query, as the SQL states
it: some acquisition (with its satellite) in range has NBAR, PQA and FC
sub-select rows agreeing on all five join keys, anchored at the NBAR row. -/
def cellPresent (db : Database) (x y : List Int) (satellites : List String)
    (acq_min acq_max : PyDateTime) (a b : Int) : Prop :=
  ∃ acq ∈ db.acquisitions, ∃ sat ∈ db.satellites,
    sat.satellite_id = acq.satellite_id ∧
    ∃ nbar ∈ levelTiles db ProcessingLevel_NBAR,
      nbar.acquisition_id = acq.acquisition_id ∧
      (∃ pq ∈ levelTiles db ProcessingLevel_PQA,
        pq.acquisition_id = acq.acquisition_id ∧
        pq.x_index = nbar.x_index ∧ pq.y_index = nbar.y_index ∧
        pq.tile_type_id = nbar.tile_type_id ∧ pq.tile_class_id = nbar.tile_class_id) ∧
      (∃ fc ∈ levelTiles db ProcessingLevel_FC,
        fc.acquisition_id = acq.acquisition_id ∧
        fc.x_index = nbar.x_index ∧ fc.y_index = nbar.y_index ∧
        fc.tile_type_id = nbar.tile_type_id ∧ fc.tile_class_id = nbar.tile_class_id) ∧
      nbar.tile_type_id ∈ TILE_TYPE_PARAM ∧ nbar.tile_class_id ∈ TILE_CLASSES ∧
      sat.satellite_tag ∈ satellites ∧
      nbar.x_index ∈ x ∧ nbar.y_index ∈ y ∧
      acqDateBetween acq.end_datetime acq_min acq_max ∧
      a = nbar.x_index ∧ b = nbar.y_index

theorem mem_cellsPresentBag {db : Database} {x y : List Int}
    {satellites : List String} {acq_min acq_max : PyDateTime} {a b : Int} :
    (a, b) ∈ cellsPresentBag db x y satellites acq_min acq_max ↔
      cellPresent db x y satellites acq_min acq_max a b := by
  simp only [cellsPresentBag, cellPresent, List.mem_flatMap, List.mem_filter,
    Bool.and_eq_true, beq_iff_eq, List.mem_ite_nil_right, List.mem_singleton,
    Prod.mk.injEq]
  constructor
  · rintro ⟨acq, hacq, sat, ⟨hsat, hsid⟩, nbar, ⟨hnbar, hnacq⟩, pq, ⟨hpq, hpqc⟩,
      fc, ⟨hfc, hfcc⟩, ⟨h1, h2, h3, h4, h5, h6⟩, ha, hb⟩
    exact ⟨acq, hacq, sat, hsat, hsid, nbar, hnbar, hnacq,
      ⟨pq, hpq, hpqc.1.1.1.1, hpqc.1.1.1.2, hpqc.1.1.2, hpqc.1.2, hpqc.2⟩,
      ⟨fc, hfc, hfcc.1.1.1.1, hfcc.1.1.1.2, hfcc.1.1.2, hfcc.1.2, hfcc.2⟩,
      h1, h2, h3, h4, h5, h6, ha, hb⟩
  · rintro ⟨acq, hacq, sat, hsat, hsid, nbar, hnbar, hnacq,
      ⟨pq, hpq, hp1, hp2, hp3, hp4, hp5⟩, ⟨fc, hfc, hf1, hf2, hf3, hf4, hf5⟩,
      h1, h2, h3, h4, h5, h6, ha, hb⟩
    exact ⟨acq, hacq, sat, ⟨hsat, hsid⟩, nbar, ⟨hnbar, hnacq⟩,
      pq, ⟨hpq, ⟨⟨⟨⟨hp1, hp2⟩, hp3⟩, hp4⟩, hp5⟩⟩,
      fc, ⟨hfc, ⟨⟨⟨⟨hf1, hf2⟩, hf3⟩, hf4⟩, hf5⟩⟩,
      ⟨h1, h2, h3, h4, h5, h6⟩, ha, hb⟩

theorem mem_list_cells_rows {db : Database} {x y : List Int}
    {satellites : List String} {acq_min acq_max : PyDateTime}
    {datasets : List Nat} {sort : SortType} {a b : Int} :
    (a, b) ∈ list_cells_rows db x y satellites acq_min acq_max datasets sort ↔
      cellPresent db x y satellites acq_min acq_max a b := by
  rw [list_cells_rows, List.mem_insertionSort, List.mem_dedup,
    mem_cellsPresentBag]

/-! ## `list_cells_missing_as_generator` (`query.py` lines 419–491)

`left outer join` of the NBAR sub-select (level hard-coded to `2` in the
SQL text) against the FC sub-select (level hard-coded to `4`), with the
row kept only when `fc.acquisition_id is null` after the join.  As in the
source, the caller's `datasets` argument is accepted but never consulted.
-/

/-- One left-outer-join group: a left row against its matching right rows;
with no match the right side is a single null. -/
def leftOuterJoinRow (a : α) (ms : List β) : List (α × Option β) :=
  match ms with
  | [] => [(a, none)]
  | ms => ms.map fun b => (a, some b)

def leftOuterJoin (left : List α) (right : List β) (cond : α → β → Bool) :
    List (α × Option β) :=
  left.flatMap fun a => leftOuterJoinRow a (right.filter (cond a))

theorem mem_leftOuterJoinRow_none {a a' : α} {ms : List β} :
    (a, (none : Option β)) ∈ leftOuterJoinRow a' ms ↔ a = a' ∧ ms = [] := by
  cases ms with
  | nil =>
    simp [leftOuterJoinRow]
  | cons b bs =>
    simp [leftOuterJoinRow]

theorem mem_leftOuterJoin_none {left : List α} {right : List β}
    {cond : α → β → Bool} {a : α} :
    (a, (none : Option β)) ∈ leftOuterJoin left right cond ↔
      a ∈ left ∧ ∀ b ∈ right, ¬ cond a b = true := by
  simp only [leftOuterJoin, List.mem_flatMap]
  constructor
  · rintro ⟨a', ha', hmem⟩
    obtain ⟨rfl, hnil⟩ := mem_leftOuterJoinRow_none.mp hmem
    exact ⟨ha', List.filter_eq_nil_iff.mp hnil⟩
  · rintro ⟨ha, hall⟩
    exact ⟨a, ha, mem_leftOuterJoinRow_none.mpr ⟨rfl, List.filter_eq_nil_iff.mpr hall⟩⟩

def cellsMissingBag (db : Database) (x y : List Int) (satellites : List String)
    (acq_min acq_max : PyDateTime) : List (Int × Int) :=
  db.acquisitions.flatMap fun acq =>
    (db.satellites.filter fun sat =>
        sat.satellite_id == acq.satellite_id).flatMap fun sat =>
      (leftOuterJoin
          ((levelTiles db 2).filter fun nbar =>
            nbar.acquisition_id == acq.acquisition_id)
          (levelTiles db 4)
          fun nbar fc =>
            fc.acquisition_id == acq.acquisition_id &&
            fc.x_index == nbar.x_index && fc.y_index == nbar.y_index &&
            fc.tile_type_id == nbar.tile_type_id &&
            fc.tile_class_id == nbar.tile_class_id).flatMap fun nf =>
        if nf.1.tile_type_id ∈ ([1] : List Nat) ∧
           nf.1.tile_class_id ∈ TILE_CLASSES ∧
           sat.satellite_tag ∈ satellites ∧
           nf.1.x_index ∈ x ∧ nf.1.y_index ∈ y ∧
           acqDateBetween acq.end_datetime acq_min acq_max ∧
           nf.2 = none then
          [(nf.1.x_index, nf.1.y_index)]
        else []

/-- The rows yielded by `list_cells_missing_as_generator` on a successful
run: `select distinct`, then `order by nbar.x_index {sort}, nbar.y_index
{sort}`. -/
def list_cells_missing_rows (db : Database) (x y : List Int)
    (satellites : List String) (acq_min acq_max : PyDateTime)
    (_datasets : List Nat) (sort : SortType) : List (Int × Int) :=
  List.insertionSort (cellOrderLe sort)
    (cellsMissingBag db x y satellites acq_min acq_max).dedup

/-- The join/filter condition of the missing-cells query: an NBAR (level 2)
row for an in-range acquisition passing the mandatory and caller filters,
with no FC (level 4) row agreeing on all five join keys. -/
def cellMissing (db : Database) (x y : List Int) (satellites : List String)
    (acq_min acq_max : PyDateTime) (a b : Int) : Prop :=
  ∃ acq ∈ db.acquisitions, ∃ sat ∈ db.satellites,
    sat.satellite_id = acq.satellite_id ∧
    ∃ nbar ∈ levelTiles db 2,
      nbar.acquisition_id = acq.acquisition_id ∧
      (∀ fc ∈ levelTiles db 4,
        ¬ (fc.acquisition_id = acq.acquisition_id ∧
           fc.x_index = nbar.x_index ∧ fc.y_index = nbar.y_index ∧
           fc.tile_type_id = nbar.tile_type_id ∧
           fc.tile_class_id = nbar.tile_class_id)) ∧
      nbar.tile_type_id ∈ ([1] : List Nat) ∧ nbar.tile_class_id ∈ TILE_CLASSES ∧
      sat.satellite_tag ∈ satellites ∧
      nbar.x_index ∈ x ∧ nbar.y_index ∈ y ∧
      acqDateBetween acq.end_datetime acq_min acq_max ∧
      a = nbar.x_index ∧ b = nbar.y_index

theorem mem_cellsMissingBag {db : Database} {x y : List Int}
    {satellites : List String} {acq_min acq_max : PyDateTime} {a b : Int} :
    (a, b) ∈ cellsMissingBag db x y satellites acq_min acq_max ↔
      cellMissing db x y satellites acq_min acq_max a b := by
  simp only [cellsMissingBag, cellMissing, List.mem_flatMap, List.mem_filter,
    List.mem_ite_nil_right, List.mem_singleton, Prod.mk.injEq, beq_iff_eq]
  constructor
  · rintro ⟨acq, hacq, sat, ⟨hsat, hsid⟩, nf, hnf,
      ⟨h1, h2, h3, h4, h5, h6, hnone⟩, ha, hb⟩
    obtain ⟨nbar, fcopt⟩ := nf
    cases hnone
    obtain ⟨hnbar, hnofc⟩ := mem_leftOuterJoin_none.mp hnf
    rw [List.mem_filter, beq_iff_eq] at hnbar
    refine ⟨acq, hacq, sat, hsat, hsid, nbar, hnbar.1, hnbar.2, ?_,
      h1, h2, h3, h4, h5, h6, ha, hb⟩
    intro fc hfc hcond
    refine hnofc fc hfc ?_
    simp only [Bool.and_eq_true, beq_iff_eq]
    exact ⟨⟨⟨⟨hcond.1, hcond.2.1⟩, hcond.2.2.1⟩, hcond.2.2.2.1⟩, hcond.2.2.2.2⟩
  · rintro ⟨acq, hacq, sat, hsat, hsid, nbar, hnbar, hnacq, hnofc,
      h1, h2, h3, h4, h5, h6, ha, hb⟩
    refine ⟨acq, hacq, sat, ⟨hsat, hsid⟩, (nbar, none), ?_,
      ⟨h1, h2, h3, h4, h5, h6, rfl⟩, ha, hb⟩
    refine mem_leftOuterJoin_none.mpr ⟨?_, ?_⟩
    · rw [List.mem_filter, beq_iff_eq]; exact ⟨hnbar, hnacq⟩
    · intro fc hfc hcond
      simp only [Bool.and_eq_true, beq_iff_eq] at hcond
      exact hnofc fc hfc
        ⟨hcond.1.1.1.1, hcond.1.1.1.2, hcond.1.1.2, hcond.1.2, hcond.2⟩

theorem mem_list_cells_missing_rows {db : Database} {x y : List Int}
    {satellites : List String} {acq_min acq_max : PyDateTime}
    {datasets : List Nat} {sort : SortType} {a b : Int} :
    (a, b) ∈ list_cells_missing_rows db x y satellites acq_min acq_max
        datasets sort ↔
      cellMissing db x y satellites acq_min acq_max a b := by
  rw [list_cells_missing_rows, List.mem_insertionSort, List.mem_dedup,
    mem_cellsMissingBag]

/-! ## Sortedness and direction reversal for the cell listings -/

theorem sorted_list_cells_rows (db : Database) (x y : List Int)
    (satellites : List String) (acq_min acq_max : PyDateTime)
    (datasets : List Nat) (sort : SortType) :
    List.Sorted (cellOrderLe sort)
      (list_cells_rows db x y satellites acq_min acq_max datasets sort) :=
  List.sorted_insertionSort (cellOrderLe sort) _

theorem sorted_list_cells_missing_rows (db : Database) (x y : List Int)
    (satellites : List String) (acq_min acq_max : PyDateTime)
    (datasets : List Nat) (sort : SortType) :
    List.Sorted (cellOrderLe sort)
      (list_cells_missing_rows db x y satellites acq_min acq_max datasets
        sort) :=
  List.sorted_insertionSort (cellOrderLe sort) _

theorem insertionSort_cellOrder_desc_eq_reverse (l : List (Int × Int)) :
    List.insertionSort (cellOrderLe .desc) l =
      (List.insertionSort (cellOrderLe .asc) l).reverse := by
  have hdesc : List.Sorted (cellOrderLe .desc)
      (List.insertionSort (cellOrderLe .desc) l) :=
    List.sorted_insertionSort _ l
  have hasc : List.Sorted (cellOrderLe .asc)
      (List.insertionSort (cellOrderLe .asc) l) :=
    List.sorted_insertionSort _ l
  have hrev : List.Sorted (cellOrderLe .desc)
      (List.insertionSort (cellOrderLe .asc) l).reverse := by
    rw [List.Sorted, List.pairwise_reverse]
    exact hasc.imp fun h => h
  have hperm : List.Perm (List.insertionSort (cellOrderLe .desc) l)
      (List.insertionSort (cellOrderLe .asc) l).reverse :=
    (List.perm_insertionSort _ l).trans
      ((List.reverse_perm _).trans (List.perm_insertionSort _ l)).symm
  exact List.eq_of_perm_of_sorted hperm hdesc hrev

theorem list_cells_rows_nodup (db : Database) (x y : List Int)
    (satellites : List String) (acq_min acq_max : PyDateTime)
    (datasets : List Nat) (sort : SortType) :
    (list_cells_rows db x y satellites acq_min acq_max datasets sort).Nodup :=
  (List.perm_insertionSort _ _).nodup_iff.mpr (List.nodup_dedup _)

theorem list_cells_missing_rows_nodup (db : Database) (x y : List Int)
    (satellites : List String) (acq_min acq_max : PyDateTime)
    (datasets : List Nat) (sort : SortType) :
    (list_cells_missing_rows db x y satellites acq_min acq_max datasets
      sort).Nodup :=
  (List.perm_insertionSort _ _).nodup_iff.mpr (List.nodup_dedup _)

/-! ## Claim C1 -/

/-- Following the claim's words (C1): cell `(a, b)` qualifies when, for at
least one acquisition in the range from a requested satellite, every
required dataset type in the caller's `datasets` list has a matching row
with identical join keys (acquisition, grid x, grid y, tile type, tile
class). -/
def claimedCellPresent (db : Database) (x y : List Int)
    (satellites : List String) (acq_min acq_max : PyDateTime)
    (datasets : List Nat) (a b : Int) : Prop :=
  a ∈ x ∧ b ∈ y ∧
  ∃ acq ∈ db.acquisitions, ∃ sat ∈ db.satellites,
    sat.satellite_id = acq.satellite_id ∧ sat.satellite_tag ∈ satellites ∧
    acqDateBetween acq.end_datetime acq_min acq_max ∧
    ∃ tt ∈ TILE_TYPE_PARAM, ∃ tc ∈ TILE_CLASSES,
      ∀ lvl ∈ datasets, ∃ st ∈ levelTiles db lvl,
        st.acquisition_id = acq.acquisition_id ∧
        st.x_index = a ∧ st.y_index = b ∧
        st.tile_type_id = tt ∧ st.tile_class_id = tc

/-- A database holding one LS5 acquisition with an NBAR (level 2) tile at
cell (120, -20) and no PQA or FC tiles. -/
def dbNbarOnly : Database :=
  { acquisitions := [⟨1, 1, ⟨2014, 6, 15, 0⟩, ⟨2014, 6, 15, 3600⟩⟩]
    satellites := [⟨1, "LS5"⟩]
    datasets := [⟨10, 1, 2⟩]
    tiles := [⟨10, 120, -20, "/tiles/nbar.tif", 1, 1⟩] }

instance : ∀ db x y satellites acq_min acq_max a b,
    Decidable (cellPresent db x y satellites acq_min acq_max a b) :=
  fun _ _ _ _ _ _ _ _ => by unfold cellPresent; infer_instance

instance : ∀ db x y satellites acq_min acq_max a b,
    Decidable (cellMissing db x y satellites acq_min acq_max a b) :=
  fun _ _ _ _ _ _ _ _ => by unfold cellMissing; infer_instance

instance : ∀ db x y satellites acq_min acq_max datasets a b,
    Decidable (claimedCellPresent db x y satellites acq_min acq_max datasets a b) :=
  fun _ _ _ _ _ _ _ _ _ => by unfold claimedCellPresent; infer_instance

/-- The acquisition date range used with `dbNbarOnly`. -/
def acqMinNbar : PyDateTime := ⟨2014, 1, 1, 0⟩

def acqMaxNbar : PyDateTime := ⟨2014, 12, 31, 0⟩

/-- C1 counterexample.  With the caller requesting only the NBAR dataset
type, cell (120, -20) of `dbNbarOnly` satisfies the claimed condition
(its one required dataset type has a matching row), yet
`list_cells_as_generator` does not return it: the query inner-joins the
fixed NBAR/PQA/FC triple no matter what the caller asked for, and
`dbNbarOnly` has no PQA or FC rows. -/
theorem claim_C1_counterexample :
    ¬ ((120, -20) ∈ list_cells_rows dbNbarOnly [120] [-20] ["LS5"]
          acqMinNbar acqMaxNbar [ProcessingLevel_NBAR] .asc ↔
        claimedCellPresent dbNbarOnly [120] [-20] ["LS5"]
          acqMinNbar acqMaxNbar [ProcessingLevel_NBAR] 120 (-20)) := by
  decide

/-- C1 (amended): for every input, the present-cells listing returns the
distinct `(x, y)` cells for which each of the FIXED dataset types NBAR,
PQA and FC — not the caller's `datasets` list, which the query ignores —
has a matching row with identical join keys (acquisition, grid x, grid y,
tile type, tile class) for at least one acquisition in the range. -/
theorem claim_C1_present_cells_fixed_triple (db : Database) (x y : List Int)
    (satellites : List String) (acq_min acq_max : PyDateTime)
    (datasets : List Nat) (sort : SortType) (a b : Int) :
    ((a, b) ∈ list_cells_rows db x y satellites acq_min acq_max datasets sort ↔
      cellPresent db x y satellites acq_min acq_max a b) ∧
    (list_cells_rows db x y satellites acq_min acq_max datasets sort).Nodup :=
  ⟨mem_list_cells_rows,
   list_cells_rows_nodup db x y satellites acq_min acq_max datasets sort⟩

/-- C9: for both cell listings, requesting `desc` yields exactly the
reverse of the `asc` sequence; the `asc` sequence is sorted
lexicographically by grid x then grid y and has no duplicate rows (so
membership is unchanged by the direction). -/
theorem claim_C9_sort_direction (db : Database) (x y : List Int)
    (satellites : List String) (acq_min acq_max : PyDateTime)
    (datasets : List Nat) :
    (list_cells_rows db x y satellites acq_min acq_max datasets .desc =
      (list_cells_rows db x y satellites acq_min acq_max datasets .asc).reverse) ∧
    (list_cells_missing_rows db x y satellites acq_min acq_max datasets .desc =
      (list_cells_missing_rows db x y satellites acq_min acq_max datasets
        .asc).reverse) ∧
    List.Sorted cellLexLe
      (list_cells_rows db x y satellites acq_min acq_max datasets .asc) ∧
    List.Sorted cellLexLe
      (list_cells_missing_rows db x y satellites acq_min acq_max datasets .asc) ∧
    (list_cells_rows db x y satellites acq_min acq_max datasets .asc).Nodup ∧
    (list_cells_missing_rows db x y satellites acq_min acq_max datasets
      .asc).Nodup :=
  ⟨insertionSort_cellOrder_desc_eq_reverse _,
   insertionSort_cellOrder_desc_eq_reverse _,
   sorted_list_cells_rows db x y satellites acq_min acq_max datasets .asc,
   sorted_list_cells_missing_rows db x y satellites acq_min acq_max datasets .asc,
   list_cells_rows_nodup db x y satellites acq_min acq_max datasets .asc,
   list_cells_missing_rows_nodup db x y satellites acq_min acq_max datasets .asc⟩

/-! ## Tile records

The select list of the tile queries.  All acquisition-derived columns are
nullable (`Option`): the terrain (DTM) query selects explicit SQL nulls
for them.  `datasets` mirrors the SQL `ARRAY[[label, pathname], …]`
column, label paired with the (nullable) tile path. -/

structure TileRecord where
  acquisition_id : Option Nat
  satellite : Option String
  start_datetime : Option PyDateTime
  end_datetime : Option PyDateTime
  end_datetime_year : Option Nat
  end_datetime_month : Option Nat
  x_index : Int
  y_index : Int
  datasets : List (String × Option String)
deriving DecidableEq, Repr

/-- The select list of `list_tiles_as_generator`: acquisition columns,
`extract(year/month from end_datetime)`, grid indices of the NBAR anchor
and the `ARG25`/`PQ25`/`FC25` pathname array. -/
def mkPresentTileRecord (acq : AcquisitionRow) (sat : SatelliteRow)
    (nbar pq fc : SubTile) : TileRecord :=
  { acquisition_id := some acq.acquisition_id
    satellite := some sat.satellite_tag
    start_datetime := some acq.start_datetime
    end_datetime := some acq.end_datetime
    end_datetime_year := some acq.end_datetime.year
    end_datetime_month := some acq.end_datetime.month
    x_index := nbar.x_index
    y_index := nbar.y_index
    datasets := [("ARG25", some nbar.tile_pathname),
                 ("PQ25", some pq.tile_pathname),
                 ("FC25", some fc.tile_pathname)] }

/-- The select list of `list_tiles_missing_as_generator`: only the `ARG25`
entry appears in the pathname array. -/
def mkMissingTileRecord (acq : AcquisitionRow) (sat : SatelliteRow)
    (nbar : SubTile) : TileRecord :=
  { acquisition_id := some acq.acquisition_id
    satellite := some sat.satellite_tag
    start_datetime := some acq.start_datetime
    end_datetime := some acq.end_datetime
    end_datetime_year := some acq.end_datetime.year
    end_datetime_month := some acq.end_datetime.month
    x_index := nbar.x_index
    y_index := nbar.y_index
    datasets := [("ARG25", some nbar.tile_pathname)] }

/-! ## `list_tiles_as_generator` (`query.py` lines 644–769)

Same join and filters as the present-cells query (levels hard-coded to
2/3/4, `datasets` argument ignored), but without `select distinct`, and
ordered by `end_datetime {sort}, satellite asc`. -/

def tilesPresentBag (db : Database) (x y : List Int) (satellites : List String)
    (acq_min acq_max : PyDateTime) : List TileRecord :=
  db.acquisitions.flatMap fun acq =>
    (db.satellites.filter fun sat =>
        sat.satellite_id == acq.satellite_id).flatMap fun sat =>
      ((levelTiles db 2).filter fun nbar =>
          nbar.acquisition_id == acq.acquisition_id).flatMap fun nbar =>
        ((levelTiles db 3).filter fun pq =>
            pq.acquisition_id == acq.acquisition_id &&
            pq.x_index == nbar.x_index && pq.y_index == nbar.y_index &&
            pq.tile_type_id == nbar.tile_type_id &&
            pq.tile_class_id == nbar.tile_class_id).flatMap fun pq =>
          ((levelTiles db 4).filter fun fc =>
              fc.acquisition_id == acq.acquisition_id &&
              fc.x_index == nbar.x_index && fc.y_index == nbar.y_index &&
              fc.tile_type_id == nbar.tile_type_id &&
              fc.tile_class_id == nbar.tile_class_id).flatMap fun fc =>
            if nbar.tile_type_id ∈ ([1] : List Nat) ∧
               nbar.tile_class_id ∈ TILE_CLASSES ∧
               sat.satellite_tag ∈ satellites ∧
               nbar.x_index ∈ x ∧ nbar.y_index ∈ y ∧
               acqDateBetween acq.end_datetime acq_min acq_max then
              [mkPresentTileRecord acq sat nbar pq fc]
            else []

/-- Sort key `end_datetime` of a tile record (always populated by the
present/missing tile queries). -/
def tileEndKey (r : TileRecord) : PyDateTime :=
  r.end_datetime.getD ⟨0, 0, 0, 0⟩

/-- Sort key `satellite` (the tag) of a tile record. -/
def tileSatKey (r : TileRecord) : String :=
  r.satellite.getD ""

/-- Ordering `order by end_datetime {sort}, satellite asc` — the timestamp follows
the requested direction, the satellite tag tie-break is always ascending. -/
def tileOrderLe (sort : SortType) (r s : TileRecord) : Prop :=
  match sort with
  | .asc => dtLt (tileEndKey r) (tileEndKey s) ∨
      (tileEndKey r = tileEndKey s ∧ tileSatKey r ≤ tileSatKey s)
  | .desc => dtLt (tileEndKey s) (tileEndKey r) ∨
      (tileEndKey r = tileEndKey s ∧ tileSatKey r ≤ tileSatKey s)

instance : ∀ sort, DecidableRel (tileOrderLe sort) := fun sort r s => by
  cases sort <;> (unfold tileOrderLe; infer_instance)

instance : ∀ sort, IsTotal TileRecord (tileOrderLe sort) := fun sort =>
  ⟨by
    intro r s
    cases sort <;>
      (unfold tileOrderLe
       rcases dtLt_trichotomy (tileEndKey r) (tileEndKey s) with h | h | h
       · first
           | exact Or.inl (Or.inl h)
           | exact Or.inr (Or.inl h)
       · rcases le_total (tileSatKey r) (tileSatKey s) with hs | hs
         · exact Or.inl (Or.inr ⟨h, hs⟩)
         · exact Or.inr (Or.inr ⟨h.symm, hs⟩)
       · first
           | exact Or.inr (Or.inl h)
           | exact Or.inl (Or.inl h))⟩

instance : ∀ sort, IsTrans TileRecord (tileOrderLe sort) := fun sort =>
  ⟨by
    intro r s t h₁ h₂
    cases sort <;>
      (unfold tileOrderLe at *
       rcases h₁ with h₁ | ⟨he₁, hs₁⟩ <;> rcases h₂ with h₂ | ⟨he₂, hs₂⟩
       · first
           | exact Or.inl (dtLt_trans h₁ h₂)
           | exact Or.inl (dtLt_trans h₂ h₁)
       · exact Or.inl (he₂ ▸ h₁)
       · exact Or.inl (he₁ ▸ h₂)
       · exact Or.inr ⟨he₁.trans he₂, hs₁.trans hs₂⟩)⟩

/-- The rows yielded by `list_tiles_as_generator` on a successful run. -/
def list_tiles_rows (db : Database) (x y : List Int) (satellites : List String)
    (acq_min acq_max : PyDateTime) (_datasets : List Nat) (sort : SortType) :
    List TileRecord :=
  List.insertionSort (tileOrderLe sort)
    (tilesPresentBag db x y satellites acq_min acq_max)

/-- The join/filter condition of the present-tiles query, row by row. -/
def tilePresent (db : Database) (x y : List Int) (satellites : List String)
    (acq_min acq_max : PyDateTime) (r : TileRecord) : Prop :=
  ∃ acq ∈ db.acquisitions, ∃ sat ∈ db.satellites,
    sat.satellite_id = acq.satellite_id ∧
    ∃ nbar ∈ levelTiles db 2,
      nbar.acquisition_id = acq.acquisition_id ∧
      ∃ pq ∈ levelTiles db 3,
        (pq.acquisition_id = acq.acquisition_id ∧
         pq.x_index = nbar.x_index ∧ pq.y_index = nbar.y_index ∧
         pq.tile_type_id = nbar.tile_type_id ∧
         pq.tile_class_id = nbar.tile_class_id) ∧
        ∃ fc ∈ levelTiles db 4,
          (fc.acquisition_id = acq.acquisition_id ∧
           fc.x_index = nbar.x_index ∧ fc.y_index = nbar.y_index ∧
           fc.tile_type_id = nbar.tile_type_id ∧
           fc.tile_class_id = nbar.tile_class_id) ∧
          nbar.tile_type_id ∈ ([1] : List Nat) ∧
          nbar.tile_class_id ∈ TILE_CLASSES ∧
          sat.satellite_tag ∈ satellites ∧
          nbar.x_index ∈ x ∧ nbar.y_index ∈ y ∧
          acqDateBetween acq.end_datetime acq_min acq_max ∧
          r = mkPresentTileRecord acq sat nbar pq fc

theorem mem_tilesPresentBag {db : Database} {x y : List Int}
    {satellites : List String} {acq_min acq_max : PyDateTime} {r : TileRecord} :
    r ∈ tilesPresentBag db x y satellites acq_min acq_max ↔
      tilePresent db x y satellites acq_min acq_max r := by
  simp only [tilesPresentBag, tilePresent, List.mem_flatMap, List.mem_filter,
    Bool.and_eq_true, beq_iff_eq, List.mem_ite_nil_right, List.mem_singleton]
  constructor
  · rintro ⟨acq, hacq, sat, ⟨hsat, hsid⟩, nbar, ⟨hnbar, hnacq⟩, pq, ⟨hpq, hpqc⟩,
      fc, ⟨hfc, hfcc⟩, ⟨h1, h2, h3, h4, h5, h6⟩, hr⟩
    exact ⟨acq, hacq, sat, hsat, hsid, nbar, hnbar, hnacq,
      pq, hpq, ⟨hpqc.1.1.1.1, hpqc.1.1.1.2, hpqc.1.1.2, hpqc.1.2, hpqc.2⟩,
      fc, hfc, ⟨hfcc.1.1.1.1, hfcc.1.1.1.2, hfcc.1.1.2, hfcc.1.2, hfcc.2⟩,
      h1, h2, h3, h4, h5, h6, hr⟩
  · rintro ⟨acq, hacq, sat, hsat, hsid, nbar, hnbar, hnacq,
      pq, hpq, ⟨hp1, hp2, hp3, hp4, hp5⟩, fc, hfc, ⟨hf1, hf2, hf3, hf4, hf5⟩,
      h1, h2, h3, h4, h5, h6, hr⟩
    exact ⟨acq, hacq, sat, ⟨hsat, hsid⟩, nbar, ⟨hnbar, hnacq⟩,
      pq, ⟨hpq, ⟨⟨⟨⟨hp1, hp2⟩, hp3⟩, hp4⟩, hp5⟩⟩,
      fc, ⟨hfc, ⟨⟨⟨⟨hf1, hf2⟩, hf3⟩, hf4⟩, hf5⟩⟩,
      ⟨h1, h2, h3, h4, h5, h6⟩, hr⟩

theorem mem_list_tiles_rows {db : Database} {x y : List Int}
    {satellites : List String} {acq_min acq_max : PyDateTime}
    {datasets : List Nat} {sort : SortType} {r : TileRecord} :
    r ∈ list_tiles_rows db x y satellites acq_min acq_max datasets sort ↔
      tilePresent db x y satellites acq_min acq_max r := by
  rw [list_tiles_rows, List.mem_insertionSort, mem_tilesPresentBag]

/-! ## `list_tiles_missing_as_generator` (`query.py` lines 934–1030)

Same left-outer-join anti-pattern as the missing-cells query (NBAR level 2
present, FC level 4 absent), selecting full tile records but ordered —
like the cell queries and unlike the present-tiles query — by
`nbar.x_index {sort}, nbar.y_index {sort}`. -/

/-- Ordering `order by nbar.x_index {sort}, nbar.y_index {sort}` lifted to tile
records. -/
def tileXYLe (sort : SortType) (r s : TileRecord) : Prop :=
  cellOrderLe sort (r.x_index, r.y_index) (s.x_index, s.y_index)

instance : ∀ sort, DecidableRel (tileXYLe sort) := fun sort r s => by
  unfold tileXYLe; infer_instance

instance : ∀ sort, IsTotal TileRecord (tileXYLe sort) := fun sort =>
  ⟨fun r s =>
    total_of (cellOrderLe sort) (r.x_index, r.y_index) (s.x_index, s.y_index)⟩

instance : ∀ sort, IsTrans TileRecord (tileXYLe sort) := fun sort =>
  ⟨fun _ _ _ h₁ h₂ => trans_of (cellOrderLe sort) h₁ h₂⟩

def tilesMissingBag (db : Database) (x y : List Int) (satellites : List String)
    (acq_min acq_max : PyDateTime) : List TileRecord :=
  db.acquisitions.flatMap fun acq =>
    (db.satellites.filter fun sat =>
        sat.satellite_id == acq.satellite_id).flatMap fun sat =>
      (leftOuterJoin
          ((levelTiles db 2).filter fun nbar =>
            nbar.acquisition_id == acq.acquisition_id)
          (levelTiles db 4)
          fun nbar fc =>
            fc.acquisition_id == acq.acquisition_id &&
            fc.x_index == nbar.x_index && fc.y_index == nbar.y_index &&
            fc.tile_type_id == nbar.tile_type_id &&
            fc.tile_class_id == nbar.tile_class_id).flatMap fun nf =>
        if nf.1.tile_type_id ∈ ([1] : List Nat) ∧
           nf.1.tile_class_id ∈ TILE_CLASSES ∧
           sat.satellite_tag ∈ satellites ∧
           nf.1.x_index ∈ x ∧ nf.1.y_index ∈ y ∧
           acqDateBetween acq.end_datetime acq_min acq_max ∧
           nf.2 = none then
          [mkMissingTileRecord acq sat nf.1]
        else []

/-- The rows yielded by `list_tiles_missing_as_generator` on a successful
run. -/
def list_tiles_missing_rows (db : Database) (x y : List Int)
    (satellites : List String) (acq_min acq_max : PyDateTime)
    (_datasets : List Nat) (sort : SortType) : List TileRecord :=
  List.insertionSort (tileXYLe sort)
    (tilesMissingBag db x y satellites acq_min acq_max)

/-- The join/filter condition of the missing-tiles query, row by row. -/
def tileMissing (db : Database) (x y : List Int) (satellites : List String)
    (acq_min acq_max : PyDateTime) (r : TileRecord) : Prop :=
  ∃ acq ∈ db.acquisitions, ∃ sat ∈ db.satellites,
    sat.satellite_id = acq.satellite_id ∧
    ∃ nbar ∈ levelTiles db 2,
      nbar.acquisition_id = acq.acquisition_id ∧
      (∀ fc ∈ levelTiles db 4,
        ¬ (fc.acquisition_id = acq.acquisition_id ∧
           fc.x_index = nbar.x_index ∧ fc.y_index = nbar.y_index ∧
           fc.tile_type_id = nbar.tile_type_id ∧
           fc.tile_class_id = nbar.tile_class_id)) ∧
      nbar.tile_type_id ∈ ([1] : List Nat) ∧ nbar.tile_class_id ∈ TILE_CLASSES ∧
      sat.satellite_tag ∈ satellites ∧
      nbar.x_index ∈ x ∧ nbar.y_index ∈ y ∧
      acqDateBetween acq.end_datetime acq_min acq_max ∧
      r = mkMissingTileRecord acq sat nbar

theorem mem_tilesMissingBag {db : Database} {x y : List Int}
    {satellites : List String} {acq_min acq_max : PyDateTime} {r : TileRecord} :
    r ∈ tilesMissingBag db x y satellites acq_min acq_max ↔
      tileMissing db x y satellites acq_min acq_max r := by
  simp only [tilesMissingBag, tileMissing, List.mem_flatMap, List.mem_filter,
    List.mem_ite_nil_right, List.mem_singleton, beq_iff_eq]
  constructor
  · rintro ⟨acq, hacq, sat, ⟨hsat, hsid⟩, nf, hnf,
      ⟨h1, h2, h3, h4, h5, h6, hnone⟩, hr⟩
    obtain ⟨nbar, fcopt⟩ := nf
    cases hnone
    obtain ⟨hnbar, hnofc⟩ := mem_leftOuterJoin_none.mp hnf
    rw [List.mem_filter, beq_iff_eq] at hnbar
    refine ⟨acq, hacq, sat, hsat, hsid, nbar, hnbar.1, hnbar.2, ?_,
      h1, h2, h3, h4, h5, h6, hr⟩
    intro fc hfc hcond
    refine hnofc fc hfc ?_
    simp only [Bool.and_eq_true, beq_iff_eq]
    exact ⟨⟨⟨⟨hcond.1, hcond.2.1⟩, hcond.2.2.1⟩, hcond.2.2.2.1⟩, hcond.2.2.2.2⟩
  · rintro ⟨acq, hacq, sat, hsat, hsid, nbar, hnbar, hnacq, hnofc,
      h1, h2, h3, h4, h5, h6, hr⟩
    refine ⟨acq, hacq, sat, ⟨hsat, hsid⟩, (nbar, none), ?_,
      ⟨h1, h2, h3, h4, h5, h6, rfl⟩, hr⟩
    refine mem_leftOuterJoin_none.mpr ⟨?_, ?_⟩
    · rw [List.mem_filter, beq_iff_eq]; exact ⟨hnbar, hnacq⟩
    · intro fc hfc hcond
      simp only [Bool.and_eq_true, beq_iff_eq] at hcond
      exact hnofc fc hfc
        ⟨hcond.1.1.1.1, hcond.1.1.1.2, hcond.1.1.2, hcond.1.2, hcond.2⟩

theorem mem_list_tiles_missing_rows {db : Database} {x y : List Int}
    {satellites : List String} {acq_min acq_max : PyDateTime}
    {datasets : List Nat} {sort : SortType} {r : TileRecord} :
    r ∈ list_tiles_missing_rows db x y satellites acq_min acq_max datasets
        sort ↔
      tileMissing db x y satellites acq_min acq_max r := by
  rw [list_tiles_missing_rows, List.mem_insertionSort, mem_tilesMissingBag]

/-! ## `list_tiles_dtm_as_generator` (`query.py` lines 1160–1288)

DSM (level 100) joined with DEM (110), DEM_S (120) and DEM_H (130) purely
on grid indices, tile type and tile class — no acquisition table, no
temporal filter, and NO `order by` (the `sort` argument is accepted but
unused).  All acquisition-derived columns are selected as SQL nulls. -/

def mkDtmTileRecord (dsm dem dems demh : SubTile) : TileRecord :=
  { acquisition_id := none
    satellite := none
    start_datetime := none
    end_datetime := none
    end_datetime_year := none
    end_datetime_month := none
    x_index := dsm.x_index
    y_index := dsm.y_index
    datasets := [("DSM", some dsm.tile_pathname),
                 ("DEM", some dem.tile_pathname),
                 ("DEM_HYDROLOGICALLY_ENFORCED", some demh.tile_pathname),
                 ("DEM_SMOOTHED", some dems.tile_pathname)] }

def list_tiles_dtm_rows (db : Database) (x y : List Int)
    (_datasets : List Nat) (_sort : SortType) : List TileRecord :=
  (levelTiles db 100).flatMap fun dsm =>
    ((levelTiles db 110).filter fun dem =>
        dem.x_index == dsm.x_index && dem.y_index == dsm.y_index &&
        dem.tile_type_id == dsm.tile_type_id &&
        dem.tile_class_id == dsm.tile_class_id).flatMap fun dem =>
      ((levelTiles db 120).filter fun dems =>
          dems.x_index == dsm.x_index && dems.y_index == dsm.y_index &&
          dems.tile_type_id == dsm.tile_type_id &&
          dems.tile_class_id == dsm.tile_class_id).flatMap fun dems =>
        ((levelTiles db 130).filter fun demh =>
            demh.x_index == dsm.x_index && demh.y_index == dsm.y_index &&
            demh.tile_type_id == dsm.tile_type_id &&
            demh.tile_class_id == dsm.tile_class_id).flatMap fun demh =>
          if dsm.tile_type_id ∈ ([1] : List Nat) ∧
             dsm.tile_class_id ∈ TILE_CLASSES ∧
             dsm.x_index ∈ x ∧ dsm.y_index ∈ y then
            [mkDtmTileRecord dsm dem dems demh]
          else []

/-! ## Claims C4 and C6 -/

/-- C4: the missing-cells and missing-tiles listings are independent of the
caller's `datasets` argument — the queries hard-code NBAR (level 2)
present via inner join and FC (level 4) absent via left outer join with a
null join key, as the accompanying membership characterisations state. -/
theorem claim_C4_missing_ignores_datasets (db : Database) (x y : List Int)
    (satellites : List String) (acq_min acq_max : PyDateTime)
    (ds₁ ds₂ : List Nat) (sort : SortType) :
    (list_cells_missing_rows db x y satellites acq_min acq_max ds₁ sort =
      list_cells_missing_rows db x y satellites acq_min acq_max ds₂ sort) ∧
    (list_tiles_missing_rows db x y satellites acq_min acq_max ds₁ sort =
      list_tiles_missing_rows db x y satellites acq_min acq_max ds₂ sort) ∧
    (∀ a b : Int,
      (a, b) ∈ list_cells_missing_rows db x y satellites acq_min acq_max
          ds₁ sort ↔
        cellMissing db x y satellites acq_min acq_max a b) ∧
    (∀ r : TileRecord,
      r ∈ list_tiles_missing_rows db x y satellites acq_min acq_max
          ds₁ sort ↔
        tileMissing db x y satellites acq_min acq_max r) :=
  ⟨rfl, rfl, fun _ _ => mem_list_cells_missing_rows,
   fun _ => mem_list_tiles_missing_rows⟩

/-- A database with two NBAR-only acquisitions (no FC), whose grid-x order
disagrees with their end-timestamp order. -/
def dbTwoNbar : Database :=
  { acquisitions := [⟨1, 1, ⟨2014, 3, 1, 0⟩, ⟨2014, 3, 1, 0⟩⟩,
                     ⟨2, 1, ⟨2014, 2, 1, 0⟩, ⟨2014, 2, 1, 0⟩⟩]
    satellites := [⟨1, "LS5"⟩]
    datasets := [⟨10, 1, 2⟩, ⟨11, 2, 2⟩]
    tiles := [⟨10, 1, 0, "/tiles/a.tif", 1, 1⟩,
              ⟨11, 2, 0, "/tiles/b.tif", 1, 1⟩] }

/-- The missing-tiles record of `dbTwoNbar` at grid x = 1 (March end). -/
def recMarch : TileRecord :=
  { acquisition_id := some 1, satellite := some "LS5"
    start_datetime := some ⟨2014, 3, 1, 0⟩, end_datetime := some ⟨2014, 3, 1, 0⟩
    end_datetime_year := some 2014, end_datetime_month := some 3
    x_index := 1, y_index := 0
    datasets := [("ARG25", some "/tiles/a.tif")] }

/-- The missing-tiles record of `dbTwoNbar` at grid x = 2 (February end). -/
def recFeb : TileRecord :=
  { acquisition_id := some 2, satellite := some "LS5"
    start_datetime := some ⟨2014, 2, 1, 0⟩, end_datetime := some ⟨2014, 2, 1, 0⟩
    end_datetime_year := some 2014, end_datetime_month := some 2
    x_index := 2, y_index := 0
    datasets := [("ARG25", some "/tiles/b.tif")] }

/-- C6 counterexample.  The missing-tiles listing of `dbTwoNbar` (ascending)
puts the March acquisition before the February one — it is ordered by grid
x/y, not by acquisition end timestamp as the claim states for the missing
variant. -/
theorem claim_C6_counterexample :
    list_tiles_missing_rows dbTwoNbar [1, 2] [0] ["LS5"]
        ⟨2014, 1, 1, 0⟩ ⟨2014, 12, 31, 0⟩ [] .asc = [recMarch, recFeb] ∧
    ¬ tileOrderLe .asc recMarch recFeb := by
  constructor
  · decide
  · decide

/-- C6 (amended): the present-tiles listing is ordered by acquisition end
timestamp in the requested direction with ties broken by satellite tag
ascending, and is a permutation of the qualifying join rows; the
missing-tiles listing is instead ordered by grid x then grid y in the
requested direction. -/
theorem claim_C6_tile_ordering (db : Database) (x y : List Int)
    (satellites : List String) (acq_min acq_max : PyDateTime)
    (datasets : List Nat) (sort : SortType) :
    List.Sorted (tileOrderLe sort)
      (list_tiles_rows db x y satellites acq_min acq_max datasets sort) ∧
    List.Perm
      (list_tiles_rows db x y satellites acq_min acq_max datasets sort)
      (tilesPresentBag db x y satellites acq_min acq_max) ∧
    List.Sorted (tileXYLe sort)
      (list_tiles_missing_rows db x y satellites acq_min acq_max datasets
        sort) ∧
    List.Perm
      (list_tiles_missing_rows db x y satellites acq_min acq_max datasets
        sort)
      (tilesMissingBag db x y satellites acq_min acq_max) :=
  ⟨List.sorted_insertionSort _ _, List.perm_insertionSort _ _,
   List.sorted_insertionSort _ _, List.perm_insertionSort _ _⟩

/-! ## Claim C7: `TimeInterval` and `DatacubeQueryContext.tile_list`
(`query.py` lines 1586–1643) -/

/-- Class `TimeInterval`: a start instant and an end instant (the Python
attributes `self.start` and `self.end`; the latter is `end_` here because
`end` is a Lean keyword).  The constructor asserts `end > start`, captured
by `TimeInterval.valid`. -/
structure TimeInterval where
  start : PyDateTime
  end_ : PyDateTime
deriving DecidableEq, Repr

def TimeInterval.MIN_INSTANT : PyDateTime := ⟨1900, 1, 1, 0⟩

def TimeInterval.MAX_INSTANT : PyDateTime := ⟨3999, 1, 1, 0⟩

/-- The constructor assertion `end_datetime > start_datetime`. -/
def TimeInterval.valid (ti : TimeInterval) : Prop :=
  dtLt ti.start ti.end_

instance : ∀ ti : TimeInterval, Decidable ti.valid := fun ti => by
  unfold TimeInterval.valid; infer_instance

/-- Method `DatacubeQueryContext.tile_list`: forwards `interval.start` /
`interval.end` as `acq_min` / `acq_max` of `list_tiles_as_list`. -/
def tile_list (db : Database) (x_list y_list : List Int)
    (satellite_list : List String) (time_interval : TimeInterval)
    (dataset_list : List Nat) (sort : SortType) : List TileRecord :=
  list_tiles_rows db x_list y_list satellite_list
    time_interval.start time_interval.end_ dataset_list sort

/-- The full present-tiles database used for the C7 boundary check: one
acquisition ending exactly at the interval's end instant, with NBAR, PQA
and FC tiles at cell (150, -34). -/
def dbBoundary : Database :=
  { acquisitions := [⟨1, 1, ⟨2015, 6, 15, 0⟩, ⟨2015, 6, 15, 0⟩⟩]
    satellites := [⟨1, "LS5"⟩]
    datasets := [⟨10, 1, 2⟩, ⟨11, 1, 3⟩, ⟨12, 1, 4⟩]
    tiles := [⟨10, 150, -34, "/tiles/nbar.tif", 1, 1⟩,
              ⟨11, 150, -34, "/tiles/pqa.tif", 1, 1⟩,
              ⟨12, 150, -34, "/tiles/fc.tif", 1, 1⟩] }

def tiBoundary : TimeInterval := ⟨⟨2014, 1, 1, 0⟩, ⟨2015, 6, 15, 0⟩⟩

/-- The tile record returned for `dbBoundary`. -/
def recBoundary : TileRecord :=
  { acquisition_id := some 1, satellite := some "LS5"
    start_datetime := some ⟨2015, 6, 15, 0⟩
    end_datetime := some ⟨2015, 6, 15, 0⟩
    end_datetime_year := some 2015, end_datetime_month := some 6
    x_index := 150, y_index := -34
    datasets := [("ARG25", some "/tiles/nbar.tif"),
                 ("PQ25", some "/tiles/pqa.tif"),
                 ("FC25", some "/tiles/fc.tif")] }

/-- C7 counterexample.  The acquisition whose end timestamp equals the
interval's end instant IS returned by `tile_list`: the SQL compares
`end_datetime::date between acq_min and acq_max` inclusively, so the range
is not half-open at the end. -/
theorem claim_C7_counterexample :
    tile_list dbBoundary [150] [-34] ["LS5"] tiBoundary [] .asc =
      [recBoundary] ∧
    recBoundary.end_datetime = some tiBoundary.end_ := by
  constructor
  · decide
  · rfl

/-- C7 (amended): `tile_list` over a valid interval returns exactly the
rows of the present-tiles join whose end timestamp's DATE cast lies
between the interval's start and end instants INCLUSIVELY; in particular,
when the interval's end is a midnight instant, an end timestamp equal to
it satisfies the temporal filter. -/
theorem claim_C7_tile_list_inclusive (db : Database) (x y : List Int)
    (satellites : List String) (ti : TimeInterval) (datasets : List Nat)
    (sort : SortType) (r : TileRecord) (hvalid : ti.valid) :
    (r ∈ tile_list db x y satellites ti datasets sort ↔
      tilePresent db x y satellites ti.start ti.end_ r) ∧
    (dateCast ti.end_ = ti.end_ →
      acqDateBetween ti.end_ ti.start ti.end_) := by
  constructor
  · exact mem_list_tiles_rows
  · intro hmid
    have hv : dtLt ti.start ti.end_ := hvalid
    unfold acqDateBetween
    rw [hmid]
    exact ⟨dtLt_to_le hv, dtLe_refl _⟩

/-- Witness for `claim_C7_tile_list_inclusive` at the boundary database. -/
theorem claim_C7_witness :
    (recBoundary ∈ tile_list dbBoundary [150] [-34] ["LS5"] tiBoundary []
        .asc ↔
      tilePresent dbBoundary [150] [-34] ["LS5"] tiBoundary.start
        tiBoundary.end_ recBoundary) ∧
    (dateCast tiBoundary.end_ = tiBoundary.end_ →
      acqDateBetween tiBoundary.end_ tiBoundary.start tiBoundary.end_) :=
  claim_C7_tile_list_inclusive dbBoundary [150] [-34] ["LS5"] tiBoundary []
    .asc recBoundary (by decide)

/-! ## The shared `try`/`except` harness of every generator
(`query.py` lines 174–258 and analogues)

Every listing function runs
```
conn, cursor = None, None
try:
    conn = psycopg2.connect(…); cursor = conn.cursor(); cursor.execute(sql, …)
    for record in result_generator(cursor):
        yield …
except Exception as e:
    _log.error("Caught exception %s", e)
    conn.rollback()
```
The possible failure points are abstracted by `Scenario`; `runListOp`
computes what the generator does for each: what it yields, whether an
exception escapes to the caller, and whether a rollback happened.  In the
`connectFail` case `conn` is still `None` when the handler executes, so
`conn.rollback()` itself raises `AttributeError`, which escapes. -/

inductive Scenario where
  | ok
  | connectFail
  | executeFail
  | fetchFail (n : Nat)
deriving DecidableEq, Repr

structure GenRun (α : Type) where
  yielded : List α
  escaped : Option String
  rolledBack : Bool
deriving DecidableEq, Repr

def runListOp (rows : List α) : Scenario → GenRun α
  | .ok => ⟨rows, none, false⟩
  | .connectFail => ⟨[], some "AttributeError", false⟩
  | .executeFail => ⟨[], none, true⟩
  | .fetchFail n => ⟨rows.take n, none, true⟩

/-- Function `list_cells_as_generator` with its failure harness. -/
def run_list_cells (db : Database) (x y : List Int) (satellites : List String)
    (acq_min acq_max : PyDateTime) (datasets : List Nat) (sort : SortType)
    (s : Scenario) : GenRun (Int × Int) :=
  runListOp (list_cells_rows db x y satellites acq_min acq_max datasets sort) s

/-- Function `list_tiles_as_generator` with its failure harness. -/
def run_list_tiles (db : Database) (x y : List Int) (satellites : List String)
    (acq_min acq_max : PyDateTime) (datasets : List Nat) (sort : SortType)
    (s : Scenario) : GenRun TileRecord :=
  runListOp (list_tiles_rows db x y satellites acq_min acq_max datasets sort) s

/-- C3 counterexample.  On a connection failure the handler's
`conn.rollback()` is called on `conn = None` and raises `AttributeError`,
which propagates to the caller — contradicting the claim that every
failure, including one before any query executes, is swallowed. -/
theorem claim_C3_counterexample :
    (run_list_cells dbNbarOnly [120] [-20] ["LS5"] acqMinNbar acqMaxNbar []
        .asc Scenario.connectFail).escaped = some "AttributeError" := by
  decide

/-- C3 (amended): failures at query execution or while fetching results are
caught, logged and rolled back, and the generator yields no further
results (so the caller sees a silently truncated prefix); but a failure to
CONNECT is only half-handled — the except block catches it, then its
`conn.rollback()` on the absent connection raises an `AttributeError`
that does propagate to the caller, with no rollback. -/
theorem claim_C3_failure_harness (rows : List α) (n : Nat) :
    runListOp rows .ok = ⟨rows, none, false⟩ ∧
    runListOp rows .executeFail = ⟨[], none, true⟩ ∧
    runListOp rows (.fetchFail n) = ⟨rows.take n, none, true⟩ ∧
    runListOp rows .connectFail = ⟨[], some "AttributeError", false⟩ ∧
    ∀ s : Scenario, (runListOp rows s).yielded <+: rows :=
  ⟨rfl, rfl, rfl, rfl, fun s =>
    match s with
    | .ok => List.prefix_refl rows
    | .connectFail => List.nil_prefix
    | .executeFail => List.nil_prefix
    | .fetchFail n => List.take_prefix n rows⟩

/-! ## Claim C2: the `_as_list` variants
(`query.py` lines 131–150, 397–416, 622–641, 912–931, 1141–1157)

For the four cell/tile present/missing operations, `…_as_list` is
literally `list(…_as_generator(same arguments))`.  `list_tiles_dtm_as_list`
is the exception: it returns `list(list_tiles(x, y, datasets, database,
user, password, host, port, sort))`, shifting every argument one position
left — `satellites := datasets`, `acq_min := database`, `acq_max := user`,
`datasets := password`, `database := host`, `user := port`,
`password := sort`.  The inner `list_tiles` call therefore builds its
connection string from the outer call's `host`/`port`/`sort` values;
`psycopg2.connect` fails (and even if a connection could be made, binding
the dataset-type objects to `satellite_tag = ANY(…)` would make
`cursor.execute`/`mogrify` fail), so the drained generator produces only
the failure behaviour of the harness — never the DTM tiles. -/

def list_tiles_dtm_as_list_run (_db : Database) (_x _y : List Int)
    (_datasets : List Nat) (_sort : SortType) : GenRun TileRecord :=
  runListOp [] Scenario.connectFail

/-- Function `result_generator` (`query.py` lines 1574–1584): pages the cursor in
`fetchmany(size)` batches (default 100) until a fetch returns nothing.
The fuel argument of `resultGeneratorGo` bounds the number of loop
iterations; `result_generator_drain` supplies enough for the whole result
set. -/
def resultGeneratorGo (size : Nat) : Nat → List α → List α
  | 0, _ => []
  | _, [] => []
  | fuel + 1, rows => rows.take size ++ resultGeneratorGo size fuel (rows.drop size)

def result_generator_drain (size : Nat) (rows : List α) : List α :=
  resultGeneratorGo size rows.length rows

theorem resultGeneratorGo_eq (size : Nat) (hsize : 0 < size) :
    ∀ (fuel : Nat) (rows : List α), rows.length ≤ fuel →
      resultGeneratorGo size fuel rows = rows := by
  intro fuel
  induction fuel with
  | zero =>
    intro rows hlen
    have hnil : rows = [] := List.eq_nil_of_length_eq_zero (by omega)
    rw [hnil]; rfl
  | succ fuel ih =>
    intro rows hlen
    match rows with
    | [] => rfl
    | a :: rest =>
      have hstep : resultGeneratorGo size (fuel + 1) (a :: rest) =
          (a :: rest).take size ++
            resultGeneratorGo size fuel ((a :: rest).drop size) := rfl
      rw [hstep, ih ((a :: rest).drop size) (by
        rw [List.length_drop]
        simp only [List.length_cons] at hlen ⊢
        omega)]
      exact List.take_append_drop size (a :: rest)

/-- Draining the paged `result_generator` loses nothing (for any positive
batch size, in particular the default 100). -/
theorem result_generator_drain_eq (size : Nat) (hsize : 0 < size)
    (rows : List α) : result_generator_drain size rows = rows :=
  resultGeneratorGo_eq size hsize rows.length rows le_rfl

/-- A database holding one complete DSM/DEM/DEM_S/DEM_H tile set at cell
(120, -20). -/
def dbDtm : Database :=
  { acquisitions := []
    satellites := []
    datasets := [⟨20, 1, 100⟩, ⟨21, 1, 110⟩, ⟨22, 1, 120⟩, ⟨23, 1, 130⟩]
    tiles := [⟨20, 120, -20, "/tiles/dsm.tif", 1, 1⟩,
              ⟨21, 120, -20, "/tiles/dem.tif", 1, 1⟩,
              ⟨22, 120, -20, "/tiles/dem_s.tif", 1, 1⟩,
              ⟨23, 120, -20, "/tiles/dem_h.tif", 1, 1⟩] }

/-- The DTM record of `dbDtm`. -/
def recDtm : TileRecord :=
  { acquisition_id := none, satellite := none
    start_datetime := none, end_datetime := none
    end_datetime_year := none, end_datetime_month := none
    x_index := 120, y_index := -20
    datasets := [("DSM", some "/tiles/dsm.tif"),
                 ("DEM", some "/tiles/dem.tif"),
                 ("DEM_HYDROLOGICALLY_ENFORCED", some "/tiles/dem_h.tif"),
                 ("DEM_SMOOTHED", some "/tiles/dem_s.tif")] }

/-- C2, evaluated at the failing input.  Draining
`list_tiles_dtm_as_generator` over `dbDtm` yields the DTM tile record
(and the paged `result_generator` loses nothing), yet
`list_tiles_dtm_as_list` — because it invokes `list_tiles` with shifted
positional arguments instead of `list_tiles_dtm_as_generator` — yields
nothing and lets the harness's `AttributeError` escape. -/
theorem claim_C2_dtm_as_list_eval :
    list_tiles_dtm_rows dbDtm [120] [-20] [ProcessingLevel_DSM] .asc =
      [recDtm] ∧
    result_generator_drain 100
        (list_tiles_dtm_rows dbDtm [120] [-20] [ProcessingLevel_DSM] .asc) =
      [recDtm] ∧
    (list_tiles_dtm_as_list_run dbDtm [120] [-20] [ProcessingLevel_DSM]
        .asc).yielded = [] ∧
    (list_tiles_dtm_as_list_run dbDtm [120] [-20] [ProcessingLevel_DSM]
        .asc).escaped = some "AttributeError" ∧
    (list_tiles_dtm_as_list_run dbDtm [120] [-20] [ProcessingLevel_DSM]
        .asc).yielded ≠
      list_tiles_dtm_rows dbDtm [120] [-20] [ProcessingLevel_DSM] .asc := by
  refine ⟨by decide, ?_, rfl, rfl, by decide⟩
  rw [result_generator_drain_eq 100 (by omega)]
  decide

/-! ## CSV export (`list_cells_to_file`, `query.py` lines 261–367, and
`list_cells_missing_to_file`, lines 494–589)

`copy (…) to STDOUT csv header delimiter ',' escape '"' null '' quote '"'`.
Both cell exports emit only integer fields, which never contain the
delimiter or quote character, so quoting is the identity; a CSV file is
modelled at field level as its list of rows (the first row the header),
each row a list of textual fields, with SQL `null` rendered as the empty
field.  The integer-to-text rendering and the re-parser are defined below
and proved mutually inverse. -/

def digitChar (n : Nat) : Char :=
  if n = 0 then '0' else if n = 1 then '1' else if n = 2 then '2'
  else if n = 3 then '3' else if n = 4 then '4' else if n = 5 then '5'
  else if n = 6 then '6' else if n = 7 then '7' else if n = 8 then '8'
  else if n = 9 then '9' else '*'

def digitVal (c : Char) : Option Nat :=
  if c.isDigit then some (c.toNat - 48) else none

theorem digitVal_digitChar {n : Nat} (h : n < 10) :
    digitVal (digitChar n) = some n := by
  interval_cases n <;> rfl

theorem digitChar_ne_dash (n : Nat) : digitChar n ≠ '-' := by
  unfold digitChar
  split_ifs <;> decide

/-- The decimal digits of `n`, most significant first. -/
def natDigits (n : Nat) : List Char :=
  if _h : n < 10 then [digitChar n]
  else natDigits (n / 10) ++ [digitChar (n % 10)]
decreasing_by exact Nat.div_lt_self (by omega) (by omega)

theorem natDigits_ne_nil (n : Nat) : natDigits n ≠ [] := by
  rw [natDigits]
  split <;> simp

theorem natDigits_head_digit (n : Nat) :
    ∃ k, k < 10 ∧ (natDigits n).head? = some (digitChar k) := by
  induction n using Nat.strong_induction_on with
  | _ n ih =>
    rw [natDigits]
    split
    · exact ⟨n, by omega, rfl⟩
    · obtain ⟨k, hk, hhead⟩ := ih (n / 10) (Nat.div_lt_self (by omega) (by omega))
      refine ⟨k, hk, ?_⟩
      rw [List.head?_append_of_ne_nil _ (natDigits_ne_nil _)]
      exact hhead

def parseDigitsAux (acc : Nat) : List Char → Option Nat
  | [] => some acc
  | c :: cs =>
    match digitVal c with
    | some d => parseDigitsAux (acc * 10 + d) cs
    | none => none

theorem parseDigitsAux_natDigits_append (n : Nat) :
    ∀ (acc : Nat) (rest : List Char),
      parseDigitsAux acc (natDigits n ++ rest) =
        parseDigitsAux (acc * 10 ^ (natDigits n).length + n) rest := by
  induction n using Nat.strong_induction_on with
  | _ n ih =>
    intro acc rest
    rw [natDigits]
    split
    · next h =>
      simp only [List.singleton_append, List.length_singleton, pow_one,
        parseDigitsAux, digitVal_digitChar h, List.nil_append]
      rfl
    · next h =>
      rw [List.append_assoc, ih (n / 10) (Nat.div_lt_self (by omega) (by omega)),
        List.singleton_append]
      have hd : digitVal (digitChar (n % 10)) = some (n % 10) :=
        digitVal_digitChar (Nat.mod_lt n (by omega))
      simp only [parseDigitsAux, hd, List.length_append, List.length_singleton]
      congr 1
      have hpow : 10 ^ ((natDigits (n / 10)).length + 1) =
          10 ^ (natDigits (n / 10)).length * 10 := pow_succ 10 _
      rw [hpow]
      have hmod : n / 10 * 10 + n % 10 = n := by omega
      ring_nf
      omega

/-- The decimal text of an integer, as rendered by the database. -/
def renderInt (i : Int) : String :=
  if i < 0 then String.mk ('-' :: natDigits i.natAbs)
  else String.mk (natDigits i.natAbs)

def parseNatChars (cs : List Char) : Option Nat :=
  if cs = [] then none else parseDigitsAux 0 cs

/-- Parse the decimal text of an integer back. -/
def parseIntStr (s : String) : Option Int :=
  match s.toList with
  | [] => none
  | c :: cs =>
    if c = '-' then (parseNatChars cs).map fun n => -(n : Int)
    else (parseDigitsAux 0 (c :: cs)).map fun n => (n : Int)

theorem parseDigitsAux_natDigits (n : Nat) :
    parseDigitsAux 0 (natDigits n) = some n := by
  have h := parseDigitsAux_natDigits_append n 0 []
  rw [List.append_nil] at h
  rw [h]
  simp [parseDigitsAux]

theorem parseIntStr_mk_cons (c : Char) (cs : List Char) :
    parseIntStr (String.mk (c :: cs)) =
      if c = '-' then (parseNatChars cs).map (fun n => -(n : Int))
      else (parseDigitsAux 0 (c :: cs)).map (fun n => (n : Int)) := rfl

theorem parseIntStr_renderInt (i : Int) : parseIntStr (renderInt i) = some i := by
  by_cases hneg : i < 0
  · have hr : renderInt i = String.mk ('-' :: natDigits i.natAbs) := by
      unfold renderInt; rw [if_pos hneg]
    rw [hr, parseIntStr_mk_cons, if_pos rfl]
    unfold parseNatChars
    rw [if_neg (natDigits_ne_nil i.natAbs), parseDigitsAux_natDigits]
    show some (-(i.natAbs : Int)) = some i
    congr 1
    omega
  · have hr : renderInt i = String.mk (natDigits i.natAbs) := by
      unfold renderInt; rw [if_neg hneg]
    obtain ⟨k, hk, hhead⟩ := natDigits_head_digit i.natAbs
    cases hl : natDigits i.natAbs with
    | nil => exact absurd hl (natDigits_ne_nil _)
    | cons c cs =>
      have hc : c = digitChar k := by
        rw [hl] at hhead
        simpa using hhead
      rw [hr, hl, parseIntStr_mk_cons, if_neg (by rw [hc]; exact digitChar_ne_dash k),
        ← hl, parseDigitsAux_natDigits]
      show some ((i.natAbs : Nat) : Int) = some i
      congr 1
      omega

/-- A nullable integer field: SQL `null` is rendered as the empty string
(`null ''`). -/
def renderField : Option Int → String
  | none => ""
  | some i => renderInt i

def parseField (s : String) : Option (Option Int) :=
  if s = "" then some none else (parseIntStr s).map some

theorem renderInt_ne_empty (i : Int) : renderInt i ≠ "" := by
  unfold renderInt
  split
  · intro h
    have : ('-' :: natDigits i.natAbs) = [] := congrArg String.toList h
    simp at this
  · intro h
    have : natDigits i.natAbs = [] := congrArg String.toList h
    exact natDigits_ne_nil _ this

theorem parseField_renderField (v : Option Int) :
    parseField (renderField v) = some v := by
  cases v with
  | none => rfl
  | some i =>
    unfold renderField parseField
    rw [if_neg (renderInt_ne_empty i), parseIntStr_renderInt]
    rfl

/-! ## The cell CSV exports

`list_cells_to_file` runs the same NBAR/PQA/FC join as the present-cells
listing but — unlike it — takes a `years` argument and filters by
`extract(year from end_datetime) = ANY(%(year)s)` instead of the
`acq_min`/`acq_max` date range, then COPYes the distinct ordered
`(x_index, y_index)` pairs out as CSV.

`list_cells_missing_to_file` keeps the date-range predicate
`end_datetime::date between %(acq_min)s and %(acq_max)s` in its SQL text,
but its params dict supplies only
`tile_type, tile_class, satellite, x, y, year` — so
`cursor.mogrify(sql, params)` raises `KeyError('acq_min')` before anything
is written; the handler swallows it and the export produces no output. -/

def cellsPresentYearBag (db : Database) (x y : List Int)
    (satellites : List String) (years : List Nat) : List (Int × Int) :=
  db.acquisitions.flatMap fun acq =>
    (db.satellites.filter fun sat =>
        sat.satellite_id == acq.satellite_id).flatMap fun sat =>
      ((levelTiles db 2).filter fun nbar =>
          nbar.acquisition_id == acq.acquisition_id).flatMap fun nbar =>
        ((levelTiles db 3).filter fun pq =>
            pq.acquisition_id == acq.acquisition_id &&
            pq.x_index == nbar.x_index && pq.y_index == nbar.y_index &&
            pq.tile_type_id == nbar.tile_type_id &&
            pq.tile_class_id == nbar.tile_class_id).flatMap fun _pq =>
          ((levelTiles db 4).filter fun fc =>
              fc.acquisition_id == acq.acquisition_id &&
              fc.x_index == nbar.x_index && fc.y_index == nbar.y_index &&
              fc.tile_type_id == nbar.tile_type_id &&
              fc.tile_class_id == nbar.tile_class_id).flatMap fun _fc =>
            if nbar.tile_type_id ∈ ([1] : List Nat) ∧
               nbar.tile_class_id ∈ TILE_CLASSES ∧
               sat.satellite_tag ∈ satellites ∧
               nbar.x_index ∈ x ∧ nbar.y_index ∈ y ∧
               acq.end_datetime.year ∈ years then
              [(nbar.x_index, nbar.y_index)]
            else []

/-- The `(x_index, y_index)` pairs COPYed out by `list_cells_to_file`:
`select distinct`, ordered by the grid indices in the requested
direction. -/
def list_cells_to_file_rows (db : Database) (x y : List Int)
    (satellites : List String) (years : List Nat) (sort : SortType) :
    List (Int × Int) :=
  List.insertionSort (cellOrderLe sort)
    (cellsPresentYearBag db x y satellites years).dedup

/-- The CSV file written by `list_cells_to_file`: header row, then one
two-field row per pair. -/
def list_cells_to_file_csv (db : Database) (x y : List Int)
    (satellites : List String) (years : List Nat) (sort : SortType) :
    List (List String) :=
  ["x_index", "y_index"] ::
    (list_cells_to_file_rows db x y satellites years sort).map fun p =>
      [renderField (some p.1), renderField (some p.2)]

/-- Re-parse one exported CSV data row back into a `(grid x, grid y)`
pair. -/
def parseCellRow : List String → Option (Int × Int)
  | [sx, sy] =>
    match parseIntStr sx, parseIntStr sy with
    | some a, some b => some (a, b)
    | _, _ => none
  | _ => none

/-- Re-parse an exported cell CSV file (header row dropped). -/
def reparseCellCsv : List (List String) → Option (List (Int × Int))
  | [] => none
  | _header :: rows => rows.mapM parseCellRow

/-- The parameter keys referenced by the SQL text of
`list_cells_missing_to_file` versus the keys its params dict provides. -/
def cellsMissingToFileSqlKeys : List String :=
  ["tile_type", "tile_class", "satellite", "x", "y", "acq_min", "acq_max"]

def cellsMissingToFileParamKeys : List String :=
  ["tile_type", "tile_class", "satellite", "x", "y", "year"]

/-- Binding `cursor.mogrify(sql, params)` succeeds only when every placeholder key
of the SQL is present in the params dict (otherwise it raises `KeyError`). -/
def mogrifyBindsOk (required provided : List String) : Bool :=
  required.all fun k => provided.contains k

/-- The CSV content produced by `list_cells_missing_to_file`, `none` when
nothing is written.  The `KeyError` from the unbound `acq_min`/`acq_max`
placeholders is swallowed by the handler before the output file is even
opened, so the `then` branch (which would COPY the anti-join rows out) is
unreachable and its value is irrelevant; it is left as the empty file. -/
def list_cells_missing_to_file_output (_db : Database) (_x _y : List Int)
    (_satellites : List String) (_years : List Nat) (_sort : SortType) :
    Option (List (List String)) :=
  if mogrifyBindsOk cellsMissingToFileSqlKeys cellsMissingToFileParamKeys then
    some []
  else
    none

theorem mapM_parseCellRow_render (rows : List (Int × Int)) :
    (rows.map fun p =>
        [renderField (some p.1), renderField (some p.2)]).mapM parseCellRow =
      some rows := by
  induction rows with
  | nil => rfl
  | cons p ps ih =>
    rw [List.map_cons, List.mapM_cons]
    have hrow : parseCellRow [renderField (some p.1), renderField (some p.2)] =
        some p := by
      show (match parseIntStr (renderField (some p.1)),
              parseIntStr (renderField (some p.2)) with
        | some a, some b => some (a, b)
        | _, _ => none) = some p
      rw [show renderField (some p.1) = renderInt p.1 from rfl,
        show renderField (some p.2) = renderInt p.2 from rfl,
        parseIntStr_renderInt, parseIntStr_renderInt]
    rw [hrow, ih]
    rfl

/-! ## Claim C5 -/

/-- C5 counterexample.  For `dbNbarOnly` the missing-cells listing returns
cell (120, -20), but the missing-cells CSV export writes nothing at all
(its parameter binding fails on the unbound `acq_min` placeholder), so
re-parsing the export cannot reconstruct the listing's tuples. -/
theorem claim_C5_counterexample :
    list_cells_missing_rows dbNbarOnly [120] [-20] ["LS5"] acqMinNbar
        acqMaxNbar [] .asc = [(120, -20)] ∧
    list_cells_missing_to_file_output dbNbarOnly [120] [-20] ["LS5"] [2014]
        .asc = none := by
  constructor
  · decide
  · rfl

/-- C5 (amended): the present-cells CSV export applies the same satellite,
grid, tile-type and tile-class filters as the present-cells listing but
filters time by acquisition YEAR membership instead of the date range;
re-parsing its output reconstructs exactly its distinct ordered
`(grid x, grid y)` rows.  The missing-cells CSV export produces no output
at all: its SQL references `acq_min`/`acq_max` parameters that its params
dict does not supply, so every call fails during parameter binding and
the swallowed error leaves nothing written. -/
theorem claim_C5_cell_exports (db : Database) (x y : List Int)
    (satellites : List String) (years : List Nat) (sort : SortType) :
    (reparseCellCsv (list_cells_to_file_csv db x y satellites years sort) =
      some (list_cells_to_file_rows db x y satellites years sort)) ∧
    (list_cells_missing_to_file_output db x y satellites years sort = none) :=
  ⟨mapM_parseCellRow_render _, rfl⟩

/-! ## `cube_util.parse_date_from_string` (`cube_util.py` lines 44–65)

```
format_list = ['%Y%m%d', '%d/%m/%Y', '%Y-%m-%d']
date = None
for date_format in format_list:
    try:
        date = datetime.datetime.strptime(date_string, date_format).date()
        break
    except ValueError:
        pass
return date
```
`strptime` is the Python standard library (external to this repository);
it is modelled per format: the text must match the format's shape (digit
runs of the format's widths, the literal separators), and the parsed
fields must form a valid calendar date (month 1–12, day within the month,
February 29 only in leap years) — otherwise `strptime` raises
`ValueError`, which the loop swallows before trying the next format.  The
function is total: every failure path yields `None`. -/

structure PyDate where
  year : Nat
  month : Nat
  day : Nat
deriving DecidableEq, Repr

def isLeapYear (y : Nat) : Bool :=
  (y % 4 == 0 && y % 100 != 0) || y % 400 == 0

def daysInMonth (y m : Nat) : Nat :=
  match m with
  | 1 => 31 | 2 => if isLeapYear y then 29 else 28 | 3 => 31
  | 4 => 30 | 5 => 31 | 6 => 30 | 7 => 31 | 8 => 31
  | 9 => 30 | 10 => 31 | 11 => 30 | 12 => 31
  | _ => 0

def validDate (y m d : Nat) : Prop :=
  1 ≤ m ∧ m ≤ 12 ∧ 1 ≤ d ∧ d ≤ daysInMonth y m

instance : ∀ y m d, Decidable (validDate y m d) := fun _ _ _ => by
  unfold validDate; infer_instance

/-- Format `strptime(s, "%Y%m%d")`: eight digits, split 4/2/2. -/
def strptimeYmd (s : String) : Option PyDate :=
  let cs := s.toList
  if cs.length = 8 then
    match parseNatChars (cs.take 4), parseNatChars ((cs.drop 4).take 2),
        parseNatChars (cs.drop 6) with
    | some y, some m, some d =>
      if validDate y m d then some ⟨y, m, d⟩ else none
    | _, _, _ => none
  else none

/-- Format `strptime(s, "%d/%m/%Y")`: day and month of one or two digits, year of
up to four digits, separated by `/`. -/
def strptimeDmy (s : String) : Option PyDate :=
  match s.splitOn "/" with
  | [ds, ms, ys] =>
    if 1 ≤ ds.length ∧ ds.length ≤ 2 ∧ 1 ≤ ms.length ∧ ms.length ≤ 2 ∧
       1 ≤ ys.length ∧ ys.length ≤ 4 then
      match parseNatChars ds.toList, parseNatChars ms.toList,
          parseNatChars ys.toList with
      | some d, some m, some y =>
        if validDate y m d then some ⟨y, m, d⟩ else none
      | _, _, _ => none
    else none
  | _ => none

/-- Format `strptime(s, "%Y-%m-%d")`: year of up to four digits, month and day of
one or two digits, separated by `-`. -/
def strptimeIsoDash (s : String) : Option PyDate :=
  match s.splitOn "-" with
  | [ys, ms, ds] =>
    if 1 ≤ ys.length ∧ ys.length ≤ 4 ∧ 1 ≤ ms.length ∧ ms.length ≤ 2 ∧
       1 ≤ ds.length ∧ ds.length ≤ 2 then
      match parseNatChars ys.toList, parseNatChars ms.toList,
          parseNatChars ds.toList with
      | some y, some m, some d =>
        if validDate y m d then some ⟨y, m, d⟩ else none
      | _, _, _ => none
    else none
  | _ => none

/-- The three formats of `format_list`, in source order:
`%Y%m%d`, `%d/%m/%Y`, `%Y-%m-%d`. -/
inductive DateFormat where
  | Ymd
  | dmY
  | Y_m_d
deriving DecidableEq, Repr

def strptime_date : DateFormat → String → Option PyDate
  | .Ymd => strptimeYmd
  | .dmY => strptimeDmy
  | .Y_m_d => strptimeIsoDash

def format_list : List DateFormat := [.Ymd, .dmY, .Y_m_d]

/-- The loop of `parse_date_from_string`: the first format whose
`strptime` succeeds wins (`break`); when every format raises `ValueError`,
the initial `date = None` is returned. -/
def parse_date_from_string (date_string : String) : Option PyDate :=
  format_list.findSome? fun date_format => strptime_date date_format date_string

/-- C10: `parse_date_from_string` is total (`Option`-valued, every
`ValueError` is caught) and tries `%Y%m%d`, `%d/%m/%Y`, `%Y-%m-%d` in that
order, returning the date parsed by the first matching format and `none`
when no format matches. -/
theorem claim_C10_parse_date_from_string (s : String) :
    (parse_date_from_string s =
      match strptime_date .Ymd s with
      | some d => some d
      | none =>
        match strptime_date .dmY s with
        | some d => some d
        | none => strptime_date .Y_m_d s) ∧
    format_list = [.Ymd, .dmY, .Y_m_d] := by
  refine ⟨?_, rfl⟩
  unfold parse_date_from_string format_list
  cases h1 : strptime_date .Ymd s with
  | some d => simp [List.findSome?_cons, h1]
  | none =>
    cases h2 : strptime_date .dmY s with
    | some d => simp [List.findSome?_cons, h1, h2]
    | none =>
      simp only [List.findSome?_cons, h1, h2, List.findSome?_nil]
      cases strptime_date .Y_m_d s <;> rfl

/-! ## Claim C8: the mandatory tile-type / tile-class filters -/

theorem tile_type_param_elim {c : Nat} (h : c ∈ TILE_TYPE_PARAM) :
    c = TileType_ONE_DEGREE := by
  simpa [TILE_TYPE_PARAM] using h

theorem tile_type_lit_elim {c : Nat} (h : c ∈ ([1] : List Nat)) :
    c = TileType_ONE_DEGREE := by
  simpa [TileType_ONE_DEGREE] using h

theorem tile_class_elim {c : Nat} (h : c ∈ TILE_CLASSES) :
    c = TileClass_SINGLE ∨ c = TileClass_MOSAIC := by
  simpa [TILE_CLASSES] using h

theorem mem_list_tiles_dtm_anchor {db : Database} {x y : List Int}
    {datasets : List Nat} {sort : SortType} {r : TileRecord}
    (hr : r ∈ list_tiles_dtm_rows db x y datasets sort) :
    ∃ dsm ∈ levelTiles db ProcessingLevel_DSM,
      r.x_index = dsm.x_index ∧ r.y_index = dsm.y_index ∧
      dsm.tile_type_id = TileType_ONE_DEGREE ∧
      (dsm.tile_class_id = TileClass_SINGLE ∨
        dsm.tile_class_id = TileClass_MOSAIC) := by
  simp only [list_tiles_dtm_rows, List.mem_flatMap, List.mem_filter,
    List.mem_ite_nil_right, List.mem_singleton, Bool.and_eq_true,
    beq_iff_eq] at hr
  obtain ⟨dsm, hdsm, dem, hdem, dems, hdems, demh, hdemh,
    ⟨htype, hclass, hx, hy⟩, hrec⟩ := hr
  subst hrec
  exact ⟨dsm, hdsm, rfl, rfl, htype, tile_class_elim hclass⟩

/-- C8: every listing — present cells, missing cells, present tiles,
missing tiles and the terrain (DTM) variant — only returns rows whose
anchoring tile passes the baked-in filters: tile type exactly
`ONE_DEGREE` (code 1), tile class in exactly the pair
`SINGLE` (code 1) / `MOSAIC` (code 4); the bound parameter lists
themselves are `[1]` and `[1, 4]`, excluding every other code. -/
theorem claim_C8_mandatory_filters :
    TILE_TYPE_PARAM = [TileType_ONE_DEGREE] ∧
    TILE_CLASSES = [TileClass_SINGLE, TileClass_MOSAIC] ∧
    (∀ (db : Database) (x y : List Int) (satellites : List String)
        (acq_min acq_max : PyDateTime) (datasets : List Nat)
        (sort : SortType) (a b : Int),
      (a, b) ∈ list_cells_rows db x y satellites acq_min acq_max datasets
          sort →
      ∃ nbar ∈ levelTiles db ProcessingLevel_NBAR,
        nbar.x_index = a ∧ nbar.y_index = b ∧
        nbar.tile_type_id = TileType_ONE_DEGREE ∧
        (nbar.tile_class_id = TileClass_SINGLE ∨
          nbar.tile_class_id = TileClass_MOSAIC)) ∧
    (∀ (db : Database) (x y : List Int) (satellites : List String)
        (acq_min acq_max : PyDateTime) (datasets : List Nat)
        (sort : SortType) (a b : Int),
      (a, b) ∈ list_cells_missing_rows db x y satellites acq_min acq_max
          datasets sort →
      ∃ nbar ∈ levelTiles db ProcessingLevel_NBAR,
        nbar.x_index = a ∧ nbar.y_index = b ∧
        nbar.tile_type_id = TileType_ONE_DEGREE ∧
        (nbar.tile_class_id = TileClass_SINGLE ∨
          nbar.tile_class_id = TileClass_MOSAIC)) ∧
    (∀ (db : Database) (x y : List Int) (satellites : List String)
        (acq_min acq_max : PyDateTime) (datasets : List Nat)
        (sort : SortType) (r : TileRecord),
      r ∈ list_tiles_rows db x y satellites acq_min acq_max datasets sort →
      ∃ nbar ∈ levelTiles db ProcessingLevel_NBAR,
        r.x_index = nbar.x_index ∧ r.y_index = nbar.y_index ∧
        nbar.tile_type_id = TileType_ONE_DEGREE ∧
        (nbar.tile_class_id = TileClass_SINGLE ∨
          nbar.tile_class_id = TileClass_MOSAIC)) ∧
    (∀ (db : Database) (x y : List Int) (satellites : List String)
        (acq_min acq_max : PyDateTime) (datasets : List Nat)
        (sort : SortType) (r : TileRecord),
      r ∈ list_tiles_missing_rows db x y satellites acq_min acq_max datasets
          sort →
      ∃ nbar ∈ levelTiles db ProcessingLevel_NBAR,
        r.x_index = nbar.x_index ∧ r.y_index = nbar.y_index ∧
        nbar.tile_type_id = TileType_ONE_DEGREE ∧
        (nbar.tile_class_id = TileClass_SINGLE ∨
          nbar.tile_class_id = TileClass_MOSAIC)) ∧
    (∀ (db : Database) (x y : List Int) (datasets : List Nat)
        (sort : SortType) (r : TileRecord),
      r ∈ list_tiles_dtm_rows db x y datasets sort →
      ∃ dsm ∈ levelTiles db ProcessingLevel_DSM,
        r.x_index = dsm.x_index ∧ r.y_index = dsm.y_index ∧
        dsm.tile_type_id = TileType_ONE_DEGREE ∧
        (dsm.tile_class_id = TileClass_SINGLE ∨
          dsm.tile_class_id = TileClass_MOSAIC)) := by
  refine ⟨rfl, rfl, ?_, ?_, ?_, ?_, ?_⟩
  · intro db x y satellites acq_min acq_max datasets sort a b hmem
    obtain ⟨acq, _, sat, _, _, nbar, hnbar, _, _, _, htype, hclass, _, _, _, _,
      ha, hb⟩ := mem_list_cells_rows.mp hmem
    exact ⟨nbar, hnbar, ha.symm, hb.symm, tile_type_param_elim htype,
      tile_class_elim hclass⟩
  · intro db x y satellites acq_min acq_max datasets sort a b hmem
    obtain ⟨acq, _, sat, _, _, nbar, hnbar, _, _, htype, hclass, _, _, _, _,
      ha, hb⟩ := mem_list_cells_missing_rows.mp hmem
    exact ⟨nbar, hnbar, ha.symm, hb.symm, tile_type_lit_elim htype,
      tile_class_elim hclass⟩
  · intro db x y satellites acq_min acq_max datasets sort r hmem
    obtain ⟨acq, _, sat, _, _, nbar, hnbar, _, pq, _, _, fc, _, _, htype,
      hclass, _, _, _, _, hrec⟩ := mem_list_tiles_rows.mp hmem
    subst hrec
    exact ⟨nbar, hnbar, rfl, rfl, tile_type_lit_elim htype,
      tile_class_elim hclass⟩
  · intro db x y satellites acq_min acq_max datasets sort r hmem
    obtain ⟨acq, _, sat, _, _, nbar, hnbar, _, _, htype, hclass, _, _, _, _,
      hrec⟩ := mem_list_tiles_missing_rows.mp hmem
    subst hrec
    exact ⟨nbar, hnbar, rfl, rfl, tile_type_lit_elim htype,
      tile_class_elim hclass⟩
  · intro db x y datasets sort r hmem
    exact mem_list_tiles_dtm_anchor hmem

/-- Witness for `claim_C8_mandatory_filters`, instantiating each listing at
a database where its output is nonempty. -/
theorem claim_C8_witness :
    (∃ nbar ∈ levelTiles dbBoundary ProcessingLevel_NBAR,
      nbar.x_index = 150 ∧ nbar.y_index = -34 ∧
      nbar.tile_type_id = TileType_ONE_DEGREE ∧
      (nbar.tile_class_id = TileClass_SINGLE ∨
        nbar.tile_class_id = TileClass_MOSAIC)) ∧
    (∃ nbar ∈ levelTiles dbNbarOnly ProcessingLevel_NBAR,
      nbar.x_index = 120 ∧ nbar.y_index = -20 ∧
      nbar.tile_type_id = TileType_ONE_DEGREE ∧
      (nbar.tile_class_id = TileClass_SINGLE ∨
        nbar.tile_class_id = TileClass_MOSAIC)) ∧
    (∃ nbar ∈ levelTiles dbBoundary ProcessingLevel_NBAR,
      recBoundary.x_index = nbar.x_index ∧
      recBoundary.y_index = nbar.y_index ∧
      nbar.tile_type_id = TileType_ONE_DEGREE ∧
      (nbar.tile_class_id = TileClass_SINGLE ∨
        nbar.tile_class_id = TileClass_MOSAIC)) ∧
    (∃ nbar ∈ levelTiles dbTwoNbar ProcessingLevel_NBAR,
      recMarch.x_index = nbar.x_index ∧
      recMarch.y_index = nbar.y_index ∧
      nbar.tile_type_id = TileType_ONE_DEGREE ∧
      (nbar.tile_class_id = TileClass_SINGLE ∨
        nbar.tile_class_id = TileClass_MOSAIC)) ∧
    (∃ dsm ∈ levelTiles dbDtm ProcessingLevel_DSM,
      recDtm.x_index = dsm.x_index ∧
      recDtm.y_index = dsm.y_index ∧
      dsm.tile_type_id = TileType_ONE_DEGREE ∧
      (dsm.tile_class_id = TileClass_SINGLE ∨
        dsm.tile_class_id = TileClass_MOSAIC)) :=
  ⟨claim_C8_mandatory_filters.2.2.1 dbBoundary [150] [-34] ["LS5"]
      ⟨2015, 1, 1, 0⟩ ⟨2015, 12, 31, 0⟩ [] .asc 150 (-34) (by decide),
   claim_C8_mandatory_filters.2.2.2.1 dbNbarOnly [120] [-20] ["LS5"]
      acqMinNbar acqMaxNbar [] .asc 120 (-20) (by decide),
   claim_C8_mandatory_filters.2.2.2.2.1 dbBoundary [150] [-34] ["LS5"]
      ⟨2015, 1, 1, 0⟩ ⟨2015, 12, 31, 0⟩ [] .asc recBoundary (by decide),
   claim_C8_mandatory_filters.2.2.2.2.2.1 dbTwoNbar [1, 2] [0] ["LS5"]
      ⟨2014, 1, 1, 0⟩ ⟨2014, 12, 31, 0⟩ [] .asc recMarch (by decide),
   claim_C8_mandatory_filters.2.2.2.2.2.2 dbDtm [120] [-20]
      [ProcessingLevel_DSM] .asc recDtm (by decide)⟩
